import Mathlib

/-!
# exoplanetCatalog

A shallow embedding of the Go package `exoplanetCatalog` (files
`nillable_float.go` and `exoplanetCatalog.go`) together with theorems about
its decoding rule, its fetcher, its three aggregators, its timeline printer
and its display function.

Conventions of the embedding:

* a `float64` that the program can hold after decoding JSON is finite (the
  decoder rejects numbers that overflow, and JSON has no NaN), so it is a
  rational number; `<` and `==` on such values are the order and equality of
  `Rat`;
* Go `int` is `Int`; every counter of the package is bounded by the length of
  a slice, so no arithmetic on it can wrap, and the one conversion of a
  `float64` to `int` keeps to the 64-bit range;
* a slice is a `List` (the nil slice and the empty slice are both `[]`),
  except the slice `fetchExoplanets` returns, which keeps nil apart from
  empty;
* the network is an argument: what `http.Get` and `io.ReadAll` return for a
  URL; the text of a response body is its JSON syntax tree, or nothing when
  it is not JSON;
* a `for ... range` loop over a slice is a left fold of the loop body over
  the list, the local variables of the loop being the state;
* a Go `map[int]planetGrouping` is a finite association list with distinct
  keys; the order of its entries stands for the order in which `range`
  happens to yield them;
* standard output is the list of the lines written to it.
-/

namespace exoplanetCatalog

/-! ## The JSON values handed to the decoder -/

/-- The finite `float64` values, as the rationals they denote. -/
abbrev float64 := Rat

/-- Syntax tree of a well-formed JSON text.  A number carries the exact
rational value of its literal and whether the literal is spelled as an
integer, with neither a fraction nor an exponent (`3`, not `3.0` or `3e0`). -/
inductive JSONValue where
  | null
  | bool (b : Bool)
  | number (q : Rat) (integerLiteral : Bool)
  | string (s : String)
  | array (elems : List JSONValue)
  | object (members : List (String × JSONValue))

/-- What `json.Unmarshal` stores in a variable of type `any`: `nil`, `bool`,
`float64`, `string`, `[]any` or `map[string]any`. -/
inductive GoAny where
  | nil
  | bool (b : Bool)
  | float64 (f : float64)
  | string (s : String)
  | slice (elems : List GoAny)
  | map (members : List (String × GoAny))

/-- The error `json.Unmarshal` reports for a number that does not fit the
target type; `Value` is the offending number. -/
structure UnmarshalTypeError where
  Value : Rat
deriving DecidableEq, Repr

/-- Rounding of a rational to the nearest integer, ties to the even one. -/
def roundHalfEven (r : Rat) : Int :=
  let f := ⌊r⌋
  let d := r - f
  if d < 1 / 2 then f else if 1 / 2 < d then f + 1 else if f % 2 = 0 then f else f + 1

/-- The `float64` nearest to `q` (53 significant bits, exponent not below
`-1022`, ties to even), for `q` that does not round to an infinity. -/
def roundFloat64 (q : Rat) : float64 :=
  if q = 0 then 0 else
  let ulp : Rat := 2 ^ (max (Int.log 2 |q|) (-1022) - 52)
  roundHalfEven (q / ulp) * ulp

/-- A decimal literal overflows `float64` when it is at least half an ulp
above the largest finite value `2^1024 - 2^971`: it rounds to an infinity. -/
@[irreducible]
def overflowsFloat64 (q : Rat) : Bool :=
  decide ((2 : Rat) ^ 1024 - 2 ^ 970 ≤ |q|)

/-- The number conversion of the decoder, `strconv.ParseFloat(s, 64)`: the
nearest `float64`, or a range error when the literal overflows. -/
def convertNumber (q : Rat) : Except UnmarshalTypeError GoAny :=
  if overflowsFloat64 q then .error ⟨q⟩ else .ok (.float64 (roundFloat64 q))

mutual
/-- The decoding of a checked JSON text into a variable of type `any`, on the
syntax tree of the text: each JSON value is stored as the corresponding Go
value, and a number that overflows `float64` anywhere in the text makes the
decoding end with an `UnmarshalTypeError`, that of the first such number. -/
def jsonUnmarshalAny : JSONValue → Except UnmarshalTypeError GoAny
  | .null => .ok .nil
  | .bool b => .ok (.bool b)
  | .number q _ => convertNumber q
  | .string s => .ok (.string s)
  | .array elems =>
    match jsonUnmarshalElems elems with
    | .error e => .error e
    | .ok vs => .ok (.slice vs)
  | .object members =>
    match jsonUnmarshalMembers members with
    | .error e => .error e
    | .ok kvs => .ok (.map kvs)
/-- Decoding of the elements of a JSON array, left to right. -/
def jsonUnmarshalElems : List JSONValue → Except UnmarshalTypeError (List GoAny)
  | [] => .ok []
  | x :: xs =>
    match jsonUnmarshalAny x with
    | .error e => .error e
    | .ok v =>
      match jsonUnmarshalElems xs with
      | .error e => .error e
      | .ok vs => .ok (v :: vs)
/-- Decoding of the members of a JSON object, left to right; of two members
with the same name the later one is kept. -/
def jsonUnmarshalMembers :
    List (String × JSONValue) → Except UnmarshalTypeError (List (String × GoAny))
  | [] => .ok []
  | (k, x) :: xs =>
    match jsonUnmarshalAny x with
    | .error e => .error e
    | .ok v =>
      match jsonUnmarshalMembers xs with
      | .error e => .error e
      | .ok kvs => .ok (if kvs.any (fun kv => kv.1 == k) then kvs else (k, v) :: kvs)
end

mutual
/-- Every number of the JSON value, at any depth, fits `float64`. -/
def JSONValue.numbersFit : JSONValue → Bool
  | .null => true
  | .bool _ => true
  | .number q _ => !overflowsFloat64 q
  | .string _ => true
  | .array elems => elemsFit elems
  | .object members => membersFit members
/-- Every number in a list of JSON values fits `float64`. -/
def elemsFit : List JSONValue → Bool
  | [] => true
  | x :: xs => x.numbersFit && elemsFit xs
/-- Every number in the members of a JSON object fits `float64`. -/
def membersFit : List (String × JSONValue) → Bool
  | [] => true
  | (_, x) :: xs => x.numbersFit && membersFit xs
end

/-- The JSON value is a number. -/
def JSONValue.isNumber : JSONValue → Bool
  | .number _ _ => true
  | _ => false

mutual
/-- Depth of nesting of arrays and objects in a JSON value. -/
def JSONValue.nesting : JSONValue → Nat
  | .null => 0
  | .bool _ => 0
  | .number _ _ => 0
  | .string _ => 0
  | .array elems => elemsNesting elems + 1
  | .object members => membersNesting members + 1
/-- Largest depth of nesting among the elements of an array. -/
def elemsNesting : List JSONValue → Nat
  | [] => 0
  | x :: xs => max x.nesting (elemsNesting xs)
/-- Largest depth of nesting among the members of an object. -/
def membersNesting : List (String × JSONValue) → Nat
  | [] => 0
  | (_, x) :: xs => max x.nesting (membersNesting xs)
end

/-- The deepest nesting the scanner of `encoding/json` accepts. -/
def maxNestingDepth : Nat := 10000

/-- What the decoder takes for well-formed (`json.Valid`): a JSON text that is
not nested deeper than `maxNestingDepth`. -/
def JSONValue.valid (j : JSONValue) : Bool :=
  decide (j.nesting ≤ maxNestingDepth)

/-- The errors of `json.Unmarshal`: a text the scanner rejects, a number that
does not fit its target, or (`Mismatch`, an `UnmarshalTypeError` whose `Value`
names the kind of the JSON value) a value of a kind its target cannot
hold. -/
inductive JSONError where
  | SyntaxError
  | TypeError (err : UnmarshalTypeError)
  | Mismatch (Value : String)
deriving DecidableEq, Repr

/-- The standard library's `json.Unmarshal(data, &value)` for `value` of type
`any`: the text is checked by the scanner and then decoded. -/
def jsonUnmarshal (data : JSONValue) : Except JSONError GoAny :=
  if data.valid then
    match jsonUnmarshalAny data with
    | .error err => .error (.TypeError err)
    | .ok value => .ok value
  else .error .SyntaxError

/-! ## nillable_float.go -/

/-- Custom float type that allows the value to be nil. -/
structure nillableFloat where
  Value : Option float64
deriving DecidableEq, Repr

/-- `func (nf *nillableFloat) UnmarshalJSON(data []byte) error`, on the syntax
tree of `data`.  The result is the receiver after the call and the returned
error (`none` for `nil`). -/
def nillableFloat.UnmarshalJSON (nf : nillableFloat) (data : JSONValue) :
    nillableFloat × Option JSONError :=
  match jsonUnmarshal data with
  | .error err => (nf, some err)
  | .ok value =>
    match value with
    | .float64 floatValue => ({ nf with Value := some floatValue }, none)
    | _ => ({ nf with Value := none }, none)

/-! ## exoplanetCatalog.go -/

/-- Classification of planetary systems: a Go `int`. -/
abbrev typeFlag := Int

def noKnownStellarBinaryCompanion : typeFlag := 0
def pTypeBinary : typeFlag := 1
def sTypeBinary : typeFlag := 2
def orphanPlanet : typeFlag := 3

/-- One catalog entry. -/
structure exoplanet where
  PlanetIdentifier : String
  TypeFlag : typeFlag
  RadiusJpt : nillableFloat
  DiscoveryYear : nillableFloat
  HostStarTempK : nillableFloat
deriving DecidableEq, Repr

/-- Body of the loop of `getNumberOfOrphanedPlanets`. -/
def orphanStep (numOrphanPlanets : Int) (planet : exoplanet) : Int :=
  if planet.TypeFlag = orphanPlanet then numOrphanPlanets + 1 else numOrphanPlanets

/-- Number of orphan planets, by the exoplanet's type flag. -/
def getNumberOfOrphanedPlanets (exoplanets : List exoplanet) : Int :=
  exoplanets.foldl orphanStep 0

/-- Body of the loop of `getPlanetsOrbitingHottestStar`; the state is
`(hottestPlanets, hottestPlanetTemp)`. -/
def hottestStep (st : List String × float64) (planet : exoplanet) : List String × float64 :=
  match planet.HostStarTempK.Value with
  | none => st
  | some temp =>
    if st.2 < temp then ([planet.PlanetIdentifier], temp)
    else if st.2 = temp then (st.1 ++ [planet.PlanetIdentifier], st.2)
    else st

/-- Name(s) of the planet(s) orbiting the hottest star(s). -/
def getPlanetsOrbitingHottestStar (exoplanets : List exoplanet) : List String :=
  (exoplanets.foldl hottestStep ([], (-1 : Rat))).1

/-- Planets of one discovery year, counted by size. -/
structure planetGrouping where
  smallSizePlanets : Int
  mediumSizePlanets : Int
  largeSizePlanets : Int
deriving DecidableEq, Repr

/-- The Go type `map[int]planetGrouping`. -/
abbrev Timeline := AList (fun _ : Int => planetGrouping)

/-- The index expression `timeline[year]`: the zero value for a missing key. -/
def Timeline.index (timeline : Timeline) (year : Int) : planetGrouping :=
  (timeline.lookup year).getD ⟨0, 0, 0⟩

/-- The conversion `int(x)` of a `float64` to the 64-bit `int`: the fraction
is discarded (truncation toward zero) when the result fits `int`; when it does
not, Go leaves the result to the implementation, and the model takes what the
amd64 compiler gives, the smallest `int`. -/
def intOfFloat64 (x : float64) : Int :=
  let t := x.num.tdiv x.den
  if -9223372036854775808 ≤ t ∧ t ≤ 9223372036854775807 then t else -9223372036854775808

/-- Body of the loop of `getTimeline`. -/
def timelineStep (planetTimeline : Timeline) (planet : exoplanet) : Timeline :=
  match planet.DiscoveryYear.Value with
  | none => planetTimeline
  | some year =>
    match planet.RadiusJpt.Value with
    | none => planetTimeline
    | some radius =>
      let intYear := intOfFloat64 year
      let planetYear := planetTimeline.index intYear
      let planetYear :=
        if radius < 1 then
          { planetYear with smallSizePlanets := planetYear.smallSizePlanets + 1 }
        else if radius < 2 then
          { planetYear with mediumSizePlanets := planetYear.mediumSizePlanets + 1 }
        else
          { planetYear with largeSizePlanets := planetYear.largeSizePlanets + 1 }
      planetTimeline.insert intYear planetYear

/-- Number of planets discovered per year, grouped by size. -/
def getTimeline (exoplanets : List exoplanet) : Timeline :=
  exoplanets.foldl timelineStep ∅

/-- The standard library's `fmt.Println`: the operands in their default
format, a space between every two of them, and a line break. -/
def Println (operands : List String) : String :=
  " ".intercalate operands ++ "\n"

/-- The line `printTimeline` writes for one year. -/
def timelineLine (year : Int) (group : planetGrouping) : String :=
  Println ["In", toString year, "we discovered", toString group.smallSizePlanets,
    "small planets,", toString group.mediumSizePlanets, "medium planets, and",
    toString group.largeSizePlanets, "large planets."]

/-- The standard library's `slices.Sort` on a slice of `int`: the elements in
ascending order. -/
def slicesSort (years : List Int) : List Int :=
  years.insertionSort (· ≤ ·)

/-- Sorts the keys of the map and writes one line per year; the result is the
list of the lines written to standard output. -/
def printTimeline (timeline : Timeline) : List String :=
  let years := timeline.keys.foldl (fun years year => years ++ [year]) []
  let years := slicesSort years
  years.foldl (fun out year => out ++ [timelineLine year (timeline.index year)]) []


/-! ## Decoding the response body into `[]exoplanet` -/

/-- A slice that can be told apart from nil: `none` is the nil slice,
`some []` an empty slice that is not nil. -/
abbrev GoSlice (α : Type) := Option (List α)

/-- The elements a `for ... range` loop visits: none for the nil slice. -/
def GoSlice.elems {α : Type} (s : GoSlice α) : List α :=
  s.getD []

/-- The name of the kind of a JSON value in an `UnmarshalTypeError`. -/
def JSONValue.kindName : JSONValue → String
  | .null => "null"
  | .bool _ => "bool"
  | .number _ _ => "number"
  | .string _ => "string"
  | .array _ => "array"
  | .object _ => "object"

/-- The decoder keeps the first error it saves and goes on. -/
def saveError (savedError : Option JSONError) (err : JSONError) : Option JSONError :=
  match savedError with
  | none => some err
  | some first => some first

/-- The fields of `exoplanet`. -/
inductive exoplanetField where
  | PlanetIdentifier
  | TypeFlag
  | RadiusJpt
  | DiscoveryYear
  | HostStarTempK
deriving DecidableEq, Repr

/-- The JSON names of the fields, from the struct tags. -/
def fieldNames : List (String × exoplanetField) :=
  [("PlanetIdentifier", .PlanetIdentifier), ("TypeFlag", .TypeFlag),
   ("RadiusJpt", .RadiusJpt), ("DiscoveryYear", .DiscoveryYear),
   ("HostStarTempK", .HostStarTempK)]

/-- Case folding of one character as far as it can meet a letter of the field
names: an ASCII lower-case letter goes to its capital, the Kelvin sign to `K`
and the long s to `S`. -/
def foldRune (c : Char) : Char :=
  if 97 ≤ c.toNat ∧ c.toNat ≤ 122 then Char.ofNat (c.toNat - 32)
  else if c.toNat = 0x212A then 'K'
  else if c.toNat = 0x17F then 'S'
  else c

/-- Case folding of a member name. -/
def foldName (name : String) : String :=
  name.map foldRune

/-- The field a member name of a JSON object selects: the field of that exact
name, or else one whose name is equal up to case. -/
def findField (key : String) : Option exoplanetField :=
  match fieldNames.find? (fun f => f.1 == key) with
  | some f => some f.2
  | none => (fieldNames.find? (fun f => foldName f.1 == foldName key)).map (fun f => f.2)

/-- Decoding of one member value into the field it selects.  The result is an
error that ends the decoding (one returned by `UnmarshalJSON`), or the record
after the member and, for a value the field cannot hold, the error to save.
`null` leaves a string or an int as it is.  For `TypeFlag` the number has to
be spelled as an integer and to fit `int` (`strconv.ParseInt`): a literal with
a fraction or an exponent is an error to save, even when its value is
integral. -/
def decodeField (planet : exoplanet) (field : exoplanetField) (value : JSONValue) :
    Except JSONError (exoplanet × Option JSONError) :=
  match field with
  | .PlanetIdentifier =>
    match value with
    | .string s => .ok ({ planet with PlanetIdentifier := s }, none)
    | .null => .ok (planet, none)
    | other => .ok (planet, some (.Mismatch other.kindName))
  | .TypeFlag =>
    match value with
    | .number q integerLiteral =>
      if integerLiteral = true ∧ q.den = 1
          ∧ -9223372036854775808 ≤ q.num ∧ q.num ≤ 9223372036854775807 then
        .ok ({ planet with TypeFlag := q.num }, none)
      else .ok (planet, some (.TypeError ⟨q⟩))
    | .null => .ok (planet, none)
    | other => .ok (planet, some (.Mismatch other.kindName))
  | .RadiusJpt =>
    match planet.RadiusJpt.UnmarshalJSON value with
    | (_, some err) => .error err
    | (nf, none) => .ok ({ planet with RadiusJpt := nf }, none)
  | .DiscoveryYear =>
    match planet.DiscoveryYear.UnmarshalJSON value with
    | (_, some err) => .error err
    | (nf, none) => .ok ({ planet with DiscoveryYear := nf }, none)
  | .HostStarTempK =>
    match planet.HostStarTempK.UnmarshalJSON value with
    | (_, some err) => .error err
    | (nf, none) => .ok ({ planet with HostStarTempK := nf }, none)

/-- Decoding of the members of a JSON object into a record, in the order of
the text; a member that selects no field is skipped. -/
def decodeObject (members : List (String × JSONValue)) (planet : exoplanet)
    (savedError : Option JSONError) : Except JSONError (exoplanet × Option JSONError) :=
  match members with
  | [] => .ok (planet, savedError)
  | (key, value) :: rest =>
    match findField key with
    | none => decodeObject rest planet savedError
    | some field =>
      match decodeField planet field value with
      | .error err => .error err
      | .ok (planet, none) => decodeObject rest planet savedError
      | .ok (planet, some err) => decodeObject rest planet (saveError savedError err)

/-- Decoding of one element of the array into a fresh record: an object fills
the fields, `null` leaves the zero value, any other value is an error to
save. -/
def decodeElement (value : JSONValue) (savedError : Option JSONError) :
    Except JSONError (exoplanet × Option JSONError) :=
  match value with
  | .object members => decodeObject members ⟨"", 0, ⟨none⟩, ⟨none⟩, ⟨none⟩⟩ savedError
  | .null => .ok (⟨"", 0, ⟨none⟩, ⟨none⟩, ⟨none⟩⟩, savedError)
  | other =>
    .ok (⟨"", 0, ⟨none⟩, ⟨none⟩, ⟨none⟩⟩, saveError savedError (.Mismatch other.kindName))

/-- Decoding of the elements of the array, left to right. -/
def decodeElements (elems : List JSONValue) (savedError : Option JSONError) :
    Except JSONError (List exoplanet × Option JSONError) :=
  match elems with
  | [] => .ok ([], savedError)
  | value :: rest =>
    match decodeElement value savedError with
    | .error err => .error err
    | .ok (planet, savedError) =>
      match decodeElements rest savedError with
      | .error err => .error err
      | .ok (planets, savedError) => .ok (planet :: planets, savedError)

/-- A text handed to the decoder: `none` when the scanner rejects it (the
empty text, `{`), else its syntax tree. -/
abbrev JSONText := Option JSONValue

/-- The standard library's `json.Unmarshal(body, &exoplanets)` for a nil
`exoplanets` of type `[]exoplanet`: the slice after a call that returns no
error, or the error.  `null` leaves the slice nil, an array gives a slice that
is not nil, any other root is an error. -/
def jsonUnmarshalExoplanets (body : JSONText) : Except JSONError (GoSlice exoplanet) :=
  match body with
  | none => .error .SyntaxError
  | some root =>
    if root.valid then
      match root with
      | .null => .ok none
      | .array elems =>
        match decodeElements elems none with
        | .error err => .error err
        | .ok (_, some err) => .error err
        | .ok (planets, none) => .ok (some planets)
      | other => .error (.Mismatch other.kindName)
    else .error .SyntaxError

/-! ## exoplanetCatalog.go: fetching and displaying -/

/-- What `http.Get` hands back on success, as far as the program looks at
it: the status and the outcome of `io.ReadAll(resp.Body)`, the text of the
body or a read error. -/
structure Response where
  StatusCode : Int
  Body : Except String JSONText

/-- The errors `fetchExoplanets` can return: that of `http.Get`, that of
`io.ReadAll`, that of `json.Unmarshal`. -/
inductive FetchError where
  | Get (err : String)
  | ReadAll (err : String)
  | Unmarshal (err : JSONError)
deriving DecidableEq, Repr

/-- URL for the exoplanet data. -/
def dataSourceURL : String :=
  "https://gist.githubusercontent.com/joelbirchler/66cf8045fcbb6515557347c05d789b4a/raw/9a196385b44d4288431eef74896c0512bad3defe/exoplanets"

/-- Retrieves the list of exoplanets from a remote URL.  The network is the
argument `httpGet`: what `http.Get` returns for a URL. -/
def fetchExoplanets (httpGet : String → Except String Response) (url : String) :
    GoSlice exoplanet × Option FetchError :=
  match httpGet url with
  | .error err => (none, some (.Get err))
  | .ok resp =>
    match resp.Body with
    | .error err => (none, some (.ReadAll err))
    | .ok body =>
      match jsonUnmarshalExoplanets body with
      | .error err => (none, some (.Unmarshal err))
      | .ok exoplanets => (exoplanets, none)

/-- The standard library's `strings.Join`. -/
def stringsJoin (elems : List String) (sep : String) : String :=
  sep.intercalate elems

/-- Fetches the catalog and prints the three statistics; the result is the
list of the lines written to standard output and the returned error. -/
def DisplayExoplanetData (httpGet : String → Except String Response) :
    List String × Option FetchError :=
  match fetchExoplanets httpGet dataSourceURL with
  | (_, some err) => ([], some err)
  | (exoplanets, none) =>
    let out := [Println ["Number of orphan planets:",
      toString (getNumberOfOrphanedPlanets exoplanets.elems)]]
    let out := out ++ [Println ["Planet(s) orbiting hottest star(s):",
      stringsJoin (getPlanetsOrbitingHottestStar exoplanets.elems) ", "]]
    let out := out ++ printTimeline (getTimeline exoplanets.elems)
    (out, none)

/-! ## Vocabulary of the statements -/

/-- The Go value holds a `float64`. -/
def GoAny.isFloat64 : GoAny → Bool
  | .float64 _ => true
  | _ => false

/-- A one-record catalog whose only host-star temperature, `-5`, lies below
the initial value `-1` of the running maximum. -/
def coldStarCatalog : List exoplanet :=
  [⟨"A", 0, ⟨none⟩, ⟨none⟩, ⟨some (-5)⟩⟩]

/-- The example of the specification: `A` and `B` at 5, `C` at 3. -/
def tieCatalog : List exoplanet :=
  [⟨"A", 0, ⟨none⟩, ⟨none⟩, ⟨some 5⟩⟩, ⟨"B", 0, ⟨none⟩, ⟨none⟩, ⟨some 5⟩⟩,
   ⟨"C", 0, ⟨none⟩, ⟨none⟩, ⟨some 3⟩⟩]

/-- The identifiers of the records whose temperature is present and equal to
`m`, in input order. -/
def idsAtTemp (m : float64) (exoplanets : List exoplanet) : List String :=
  (exoplanets.filter (fun planet => decide (planet.HostStarTempK.Value = some m))).map
    (fun planet => planet.PlanetIdentifier)

/-- The record has a discovery year and a radius, and its year converts to
`y`. -/
def discoveredIn (y : Int) (planet : exoplanet) : Bool :=
  match planet.DiscoveryYear.Value, planet.RadiusJpt.Value with
  | some year, some _ => decide (intOfFloat64 year = y)
  | _, _ => false

/-- The record is discovered in `y` and its radius is below 1. -/
def smallIn (y : Int) (planet : exoplanet) : Bool :=
  match planet.DiscoveryYear.Value, planet.RadiusJpt.Value with
  | some year, some radius => decide (intOfFloat64 year = y ∧ radius < 1)
  | _, _ => false

/-- The record is discovered in `y` and its radius is at least 1 and below
2. -/
def mediumIn (y : Int) (planet : exoplanet) : Bool :=
  match planet.DiscoveryYear.Value, planet.RadiusJpt.Value with
  | some year, some radius => decide (intOfFloat64 year = y ∧ 1 ≤ radius ∧ radius < 2)
  | _, _ => false

/-- The record is discovered in `y` and its radius is at least 2. -/
def largeIn (y : Int) (planet : exoplanet) : Bool :=
  match planet.DiscoveryYear.Value, planet.RadiusJpt.Value with
  | some year, some radius => decide (intOfFloat64 year = y ∧ 2 ≤ radius)
  | _, _ => false

/-- The record has both a discovery year and a radius. -/
def hasYearAndRadius (planet : exoplanet) : Bool :=
  planet.DiscoveryYear.Value.isSome && planet.RadiusJpt.Value.isSome

/-- Number of planets of a group, over its three sizes. -/
def planetGrouping.total (group : planetGrouping) : Int :=
  group.smallSizePlanets + group.mediumSizePlanets + group.largeSizePlanets

/-- Number of planets of a timeline, over all its years. -/
def Timeline.total (timeline : Timeline) : Int :=
  (timeline.entries.map (fun entry => entry.2.total)).sum

/-- A timeline whose keys come in the order 2024, 2022, 2023. -/
def unorderedTimeline : Timeline :=
  ⟨[⟨2024, ⟨1, 2, 1⟩⟩, ⟨2022, ⟨3, 4, 2⟩⟩, ⟨2023, ⟨5, 6, 7⟩⟩], by
    simp [List.NodupKeys, List.keys]⟩

/-- The same timeline with its keys in the order 2023, 2024, 2022. -/
def reorderedTimeline : Timeline :=
  ⟨[⟨2023, ⟨5, 6, 7⟩⟩, ⟨2024, ⟨1, 2, 1⟩⟩, ⟨2022, ⟨3, 4, 2⟩⟩], by
    simp [List.NodupKeys, List.keys]⟩

/-- Truncation toward zero: the floor of a value that is not negative, the
ceiling of a negative one. -/
def truncTowardZero (v : Rat) : Int :=
  if 0 ≤ v then ⌊v⌋ else ⌈v⌉

/-- The line of the specification for a year and its group. -/
def specLine (y : Int) (group : planetGrouping) : String :=
  "In " ++ toString y ++ " we discovered " ++ toString group.smallSizePlanets
    ++ " small planets, " ++ toString group.mediumSizePlanets ++ " medium planets, and "
    ++ toString group.largeSizePlanets ++ " large planets.\n"

/-- Network of the test case `HTTPError` with a body that decodes: status 500
and the body `[]`. -/
def status500EmptyArray : String → Except String Response :=
  fun _ => .ok ⟨500, .ok (some (.array []))⟩

/-- Network of the test case `HTTPError`: status 500 and the empty body, which
is not JSON. -/
def status500NoBody : String → Except String Response :=
  fun _ => .ok ⟨500, .ok none⟩

/-- Network that answers 200 with the empty body. -/
def status200NoBody : String → Except String Response :=
  fun _ => .ok ⟨200, .ok none⟩

/-- Network of the test case `NilResponse`: status 200 and the body `null`. -/
def status200Null : String → Except String Response :=
  fun _ => .ok ⟨200, .ok (some .null)⟩

/-- Network that answers 200 with a body whose root is an object. -/
def status200Object : String → Except String Response :=
  fun _ => .ok ⟨200, .ok (some (.object []))⟩

/-- Network that answers 200 with one orphan planet of radius 1, discovered
in 2000, around a star at 5000 K. -/
def status200OnePlanet : String → Except String Response :=
  fun _ => .ok ⟨200, .ok (some (.array [.object [("PlanetIdentifier", .string "P1"),
    ("TypeFlag", .number 3 true), ("RadiusJpt", .number 1 true),
    ("DiscoveryYear", .number 2000 true), ("HostStarTempK", .number 5000 true)]]))⟩

/-- The integer fits the 64-bit `int`. -/
def fitsInt (t : Int) : Prop :=
  -9223372036854775808 ≤ t ∧ t ≤ 9223372036854775807

/-- A catalog of one planet of radius 0.5 whose discovery year, `1e19`, does
not fit `int` (the body `[{"RadiusJpt":0.5,"DiscoveryYear":1e19}]`). -/
def overflowYearCatalog : List exoplanet :=
  [⟨"", 0, ⟨some (1 / 2)⟩, ⟨some 10000000000000000000⟩, ⟨none⟩⟩]

/-- Every present discovery year of the list truncates to an integer that
fits `int`. -/
def yearsFitInt (exoplanets : List exoplanet) : Prop :=
  ∀ planet ∈ exoplanets, ∀ year, planet.DiscoveryYear.Value = some year →
    fitsInt (truncTowardZero year)

/-- The record has a year that truncates to `y` and a radius below 1. -/
def truncSmallIn (y : Int) (planet : exoplanet) : Bool :=
  match planet.DiscoveryYear.Value, planet.RadiusJpt.Value with
  | some year, some radius => decide (truncTowardZero year = y ∧ radius < 1)
  | _, _ => false

/-- The record has a year that truncates to `y` and a radius from 1 and
below 2. -/
def truncMediumIn (y : Int) (planet : exoplanet) : Bool :=
  match planet.DiscoveryYear.Value, planet.RadiusJpt.Value with
  | some year, some radius => decide (truncTowardZero year = y ∧ 1 ≤ radius ∧ radius < 2)
  | _, _ => false

/-- The record has a year that truncates to `y` and a radius from 2. -/
def truncLargeIn (y : Int) (planet : exoplanet) : Bool :=
  match planet.DiscoveryYear.Value, planet.RadiusJpt.Value with
  | some year, some radius => decide (truncTowardZero year = y ∧ 2 ≤ radius)
  | _, _ => false

/-! ## Orphan counter -/

/-- The loop of `getNumberOfOrphanedPlanets` adds to its counter the number of
records whose flag is `orphanPlanet`. -/
theorem foldl_orphanStep (exoplanets : List exoplanet) (n : Int) :
    exoplanets.foldl orphanStep n
      = n + (exoplanets.countP (fun planet => decide (planet.TypeFlag = 3)) : Nat) := by
  induction exoplanets generalizing n with
  | nil => simp
  | cons planet rest ih =>
    rw [List.foldl_cons, ih, List.countP_cons]
    by_cases h : planet.TypeFlag = 3
    · simp [orphanStep, orphanPlanet, h]; ring
    · simp [orphanStep, orphanPlanet, h]

/-- C3: for every list of records the result of `getNumberOfOrphanedPlanets`
is the number of records whose `TypeFlag` is exactly `orphanPlanet`, which is
3; the empty list gives 0, and appending a record with any other flag (999, a
negative number) never changes the count. -/
theorem getNumberOfOrphanedPlanets_eq_count (exoplanets : List exoplanet) :
    orphanPlanet = 3
    ∧ getNumberOfOrphanedPlanets exoplanets
        = (exoplanets.countP (fun planet => decide (planet.TypeFlag = 3)) : Nat)
    ∧ getNumberOfOrphanedPlanets [] = 0
    ∧ ∀ planet : exoplanet, ¬ planet.TypeFlag = 3 →
        getNumberOfOrphanedPlanets (exoplanets ++ [planet])
          = getNumberOfOrphanedPlanets exoplanets := by
  refine ⟨rfl, ?_, rfl, ?_⟩
  · simp [getNumberOfOrphanedPlanets, foldl_orphanStep]
  · intro planet h
    simp [getNumberOfOrphanedPlanets, List.foldl_append, orphanStep, orphanPlanet, h]

/-- C3 at a list with flags 1, 999, 3 and -3: one orphan, and a further record
with flag 999 leaves the count unchanged. -/
theorem getNumberOfOrphanedPlanets_eq_count_witness :
    getNumberOfOrphanedPlanets
        ([⟨"a", 1, ⟨none⟩, ⟨none⟩, ⟨none⟩⟩, ⟨"b", 999, ⟨none⟩, ⟨none⟩, ⟨none⟩⟩,
          ⟨"c", 3, ⟨none⟩, ⟨none⟩, ⟨none⟩⟩, ⟨"d", -3, ⟨none⟩, ⟨none⟩, ⟨none⟩⟩]
          ++ [⟨"e", 999, ⟨none⟩, ⟨none⟩, ⟨none⟩⟩])
      = getNumberOfOrphanedPlanets
        [⟨"a", 1, ⟨none⟩, ⟨none⟩, ⟨none⟩⟩, ⟨"b", 999, ⟨none⟩, ⟨none⟩, ⟨none⟩⟩,
          ⟨"c", 3, ⟨none⟩, ⟨none⟩, ⟨none⟩⟩, ⟨"d", -3, ⟨none⟩, ⟨none⟩, ⟨none⟩⟩] :=
  (getNumberOfOrphanedPlanets_eq_count _).2.2.2 ⟨"e", 999, ⟨none⟩, ⟨none⟩, ⟨none⟩⟩ (by decide)

/-- C9: `getNumberOfOrphanedPlanets` returns the same count on two lists that
are permutations of each other. -/
theorem getNumberOfOrphanedPlanets_perm (l₁ l₂ : List exoplanet) (h : l₁.Perm l₂) :
    getNumberOfOrphanedPlanets l₁ = getNumberOfOrphanedPlanets l₂ := by
  simp only [getNumberOfOrphanedPlanets, foldl_orphanStep, h.countP_eq]

/-- C9 at a two-record list and its reversal. -/
theorem getNumberOfOrphanedPlanets_perm_witness :
    getNumberOfOrphanedPlanets
        [⟨"a", 3, ⟨none⟩, ⟨none⟩, ⟨none⟩⟩, ⟨"b", 0, ⟨none⟩, ⟨none⟩, ⟨none⟩⟩]
      = getNumberOfOrphanedPlanets
        [⟨"b", 0, ⟨none⟩, ⟨none⟩, ⟨none⟩⟩, ⟨"a", 3, ⟨none⟩, ⟨none⟩, ⟨none⟩⟩] :=
  getNumberOfOrphanedPlanets_perm _ _ (List.Perm.swap _ _ _)

/-! ## Hottest-star planet finder -/

theorem idsAtTemp_cons_none (m : float64) (planet : exoplanet) (rest : List exoplanet)
    (h : planet.HostStarTempK.Value = none) :
    idsAtTemp m (planet :: rest) = idsAtTemp m rest := by
  simp [idsAtTemp, h]

theorem idsAtTemp_cons_eq (m : float64) (planet : exoplanet) (rest : List exoplanet)
    (h : planet.HostStarTempK.Value = some m) :
    idsAtTemp m (planet :: rest) = planet.PlanetIdentifier :: idsAtTemp m rest := by
  simp [idsAtTemp, h]

theorem idsAtTemp_cons_ne (m t : float64) (planet : exoplanet) (rest : List exoplanet)
    (h : planet.HostStarTempK.Value = some t) (hne : t ≠ m) :
    idsAtTemp m (planet :: rest) = idsAtTemp m rest := by
  simp [idsAtTemp, h, hne]

theorem hottestStep_none (st : List String × float64) (planet : exoplanet)
    (h : planet.HostStarTempK.Value = none) : hottestStep st planet = st := by
  simp [hottestStep, h]

theorem hottestStep_lt (ids : List String) (m t : float64) (planet : exoplanet)
    (h : planet.HostStarTempK.Value = some t) (hlt : m < t) :
    hottestStep (ids, m) planet = ([planet.PlanetIdentifier], t) := by
  simp [hottestStep, h, hlt]

theorem hottestStep_eq (ids : List String) (t : float64) (planet : exoplanet)
    (h : planet.HostStarTempK.Value = some t) :
    hottestStep (ids, t) planet = (ids ++ [planet.PlanetIdentifier], t) := by
  simp [hottestStep, h]

theorem hottestStep_gt (ids : List String) (m t : float64) (planet : exoplanet)
    (h : planet.HostStarTempK.Value = some t) (hgt : t < m) :
    hottestStep (ids, m) planet = (ids, m) := by
  simp [hottestStep, h, not_lt.2 (le_of_lt hgt), ne_of_gt hgt]

/-- The running maximum never decreases. -/
theorem hottestTemp_ge (exoplanets : List exoplanet) (ids : List String) (m : float64) :
    m ≤ (exoplanets.foldl hottestStep (ids, m)).2 := by
  induction exoplanets generalizing ids m with
  | nil => simp
  | cons planet rest ih =>
    rw [List.foldl_cons]
    cases ht : planet.HostStarTempK.Value with
    | none => rw [hottestStep_none _ _ ht]; exact ih ids m
    | some t =>
      rcases lt_trichotomy m t with h | h | h
      · rw [hottestStep_lt _ _ _ _ ht h]
        exact le_trans (le_of_lt h) (ih _ t)
      · subst h
        rw [hottestStep_eq _ _ _ ht]
        exact ih _ m
      · rw [hottestStep_gt _ _ _ _ ht h]
        exact ih ids m

/-- The running maximum bounds every present temperature of the input. -/
theorem hottestTemp_upper (exoplanets : List exoplanet) (ids : List String) (m : float64)
    (planet : exoplanet) (hp : planet ∈ exoplanets) (t : float64)
    (ht : planet.HostStarTempK.Value = some t) :
    t ≤ (exoplanets.foldl hottestStep (ids, m)).2 := by
  induction exoplanets generalizing ids m with
  | nil => simp at hp
  | cons first rest ih =>
    rw [List.foldl_cons]
    rcases List.mem_cons.1 hp with hfirst | hrest
    · subst hfirst
      rcases lt_trichotomy m t with h | h | h
      · rw [hottestStep_lt _ _ _ _ ht h]
        exact hottestTemp_ge rest _ t
      · subst h
        rw [hottestStep_eq _ _ _ ht]
        exact hottestTemp_ge rest _ m
      · rw [hottestStep_gt _ _ _ _ ht h]
        exact le_trans (le_of_lt h) (hottestTemp_ge rest ids m)
    · cases hf : hottestStep (ids, m) first with
      | mk ids' m' => exact ih ids' m' hrest

/-- The running maximum is its initial value or a present temperature of the
input. -/
theorem hottestTemp_attained (exoplanets : List exoplanet) (ids : List String) (m : float64) :
    (exoplanets.foldl hottestStep (ids, m)).2 = m
      ∨ ∃ planet ∈ exoplanets,
          planet.HostStarTempK.Value = some (exoplanets.foldl hottestStep (ids, m)).2 := by
  induction exoplanets generalizing ids m with
  | nil => simp
  | cons first rest ih =>
    rw [List.foldl_cons]
    have keep : ∀ (ids' : List String),
        (rest.foldl hottestStep (ids', m)).2 = m
          ∨ ∃ planet ∈ first :: rest,
              planet.HostStarTempK.Value = some (rest.foldl hottestStep (ids', m)).2 := by
      intro ids'
      rcases ih ids' m with h | ⟨p, hp, hv⟩
      · exact Or.inl h
      · exact Or.inr ⟨p, List.mem_cons_of_mem _ hp, hv⟩
    cases ht : first.HostStarTempK.Value with
    | none => rw [hottestStep_none _ _ ht]; exact keep ids
    | some t =>
      rcases lt_trichotomy m t with h | h | h
      · rw [hottestStep_lt _ _ _ _ ht h]
        rcases ih [first.PlanetIdentifier] t with h' | ⟨p, hp, hv⟩
        · exact Or.inr ⟨first, List.mem_cons_self _ _, by rw [h']; exact ht⟩
        · exact Or.inr ⟨p, List.mem_cons_of_mem _ hp, hv⟩
      · subst h
        rw [hottestStep_eq _ _ _ ht]
        exact keep _
      · rw [hottestStep_gt _ _ _ _ ht h]
        exact keep ids

/-- The identifiers held at the end of the loop: those held at the start, when
the maximum has not moved, and then the records of the input at the final
maximum, in input order. -/
theorem hottestIds_eq (exoplanets : List exoplanet) (ids : List String) (m : float64) :
    (exoplanets.foldl hottestStep (ids, m)).1
      = (if (exoplanets.foldl hottestStep (ids, m)).2 = m then ids else [])
          ++ idsAtTemp (exoplanets.foldl hottestStep (ids, m)).2 exoplanets := by
  induction exoplanets generalizing ids m with
  | nil => simp [idsAtTemp]
  | cons first rest ih =>
    rw [List.foldl_cons]
    cases ht : first.HostStarTempK.Value with
    | none =>
      rw [hottestStep_none _ _ ht, idsAtTemp_cons_none _ _ _ ht]
      exact ih ids m
    | some t =>
      rcases lt_trichotomy m t with h | h | h
      · rw [hottestStep_lt _ _ _ _ ht h, ih]
        have hge := hottestTemp_ge rest [first.PlanetIdentifier] t
        have hne : ¬ (rest.foldl hottestStep ([first.PlanetIdentifier], t)).2 = m :=
          fun he => absurd h (not_lt.2 (he ▸ hge))
        rw [if_neg hne]
        by_cases he : (rest.foldl hottestStep ([first.PlanetIdentifier], t)).2 = t
        · rw [if_pos he, idsAtTemp_cons_eq _ _ _ (by rw [he]; exact ht)]
          simp
        · rw [if_neg he, idsAtTemp_cons_ne _ t _ _ ht (fun h' => he h'.symm)]
      · subst h
        rw [hottestStep_eq _ _ _ ht, ih]
        by_cases he : (rest.foldl hottestStep (ids ++ [first.PlanetIdentifier], m)).2 = m
        · rw [if_pos he, if_pos he, idsAtTemp_cons_eq _ _ _ (by rw [he]; exact ht)]
          simp
        · rw [if_neg he, if_neg he, idsAtTemp_cons_ne _ m _ _ ht (fun h' => he h'.symm)]
      · rw [hottestStep_gt _ _ _ _ ht h, ih]
        have hge := hottestTemp_ge rest ids m
        rw [idsAtTemp_cons_ne _ t _ _ ht (fun h' => absurd h (not_lt.2 (h' ▸ hge)))]

/-- C1, as amended: for every list of records `getPlanetsOrbitingHottestStar`
returns exactly the identifiers of the records whose `HostStarTempK` is
present and equal to `m`, all of them and no others, in input order, where `m`
is the maximum of the initial value `-1` of the running maximum and of all
present temperatures: `m` is at least `-1`, bounds every present temperature,
and is `-1` or a present temperature. -/
theorem getPlanetsOrbitingHottestStar_eq (exoplanets : List exoplanet) :
    ∃ m : float64,
      -1 ≤ m
      ∧ (∀ planet ∈ exoplanets, ∀ t, planet.HostStarTempK.Value = some t → t ≤ m)
      ∧ (m = -1 ∨ ∃ planet ∈ exoplanets, planet.HostStarTempK.Value = some m)
      ∧ getPlanetsOrbitingHottestStar exoplanets = idsAtTemp m exoplanets := by
  refine ⟨(exoplanets.foldl hottestStep ([], (-1 : Rat))).2, hottestTemp_ge _ _ _,
    fun planet hp t ht => hottestTemp_upper _ _ _ planet hp t ht,
    hottestTemp_attained _ _ _, ?_⟩
  unfold getPlanetsOrbitingHottestStar
  rw [hottestIds_eq]
  simp

/-- C1 at the example of the specification: `[A:5, B:5, C:3]` gives
`[A, B]`. -/
theorem getPlanetsOrbitingHottestStar_eq_witness :
    getPlanetsOrbitingHottestStar tieCatalog = ["A", "B"] := by
  obtain ⟨m, _, hub, hatt, hres⟩ := getPlanetsOrbitingHottestStar_eq tieCatalog
  have h5 : (5 : Rat) ≤ m :=
    hub ⟨"A", 0, ⟨none⟩, ⟨none⟩, ⟨some 5⟩⟩ (by simp [tieCatalog]) 5 rfl
  have hm : m = 5 := by
    rcases hatt with h | ⟨planet, hp, hv⟩
    · rw [h] at h5; norm_num at h5
    · simp only [tieCatalog, List.mem_cons, List.mem_singleton, List.not_mem_nil,
        or_false] at hp
      rcases hp with rfl | rfl | rfl
      · exact (Option.some.inj hv).symm
      · exact (Option.some.inj hv).symm
      · have h3 : m = 3 := (Option.some.inj hv).symm
        rw [h3] at h5; norm_num at h5
  rw [hres, hm]
  decide

/-- C1 as stated fails on `coldStarCatalog`: its present temperatures are
exactly `[-5]`, so the maximum present temperature is `-5` and the records at
that maximum are `[A]`, yet the function returns the empty list. -/
theorem getPlanetsOrbitingHottestStar_coldStar :
    coldStarCatalog.filterMap (fun planet => planet.HostStarTempK.Value) = [-5]
    ∧ idsAtTemp (-5) coldStarCatalog = ["A"]
    ∧ getPlanetsOrbitingHottestStar coldStarCatalog = [] := by
  refine ⟨by decide, by decide, by decide⟩

/-- Records without a temperature leave the state of the loop unchanged. -/
theorem foldl_hottestStep_absent (exoplanets : List exoplanet) (st : List String × float64)
    (h : ∀ planet ∈ exoplanets, planet.HostStarTempK.Value = none) :
    exoplanets.foldl hottestStep st = st := by
  induction exoplanets generalizing st with
  | nil => rfl
  | cons first rest ih =>
    rw [List.foldl_cons, hottestStep_none _ _ (h first (List.mem_cons_self _ _))]
    exact ih st (fun planet hp => h planet (List.mem_cons_of_mem _ hp))

/-- C8: for every list of records in which no record has a present
`HostStarTempK`, the empty list included, `getPlanetsOrbitingHottestStar`
returns the empty sequence. -/
theorem getPlanetsOrbitingHottestStar_absent (exoplanets : List exoplanet)
    (h : ∀ planet ∈ exoplanets, planet.HostStarTempK.Value = none) :
    getPlanetsOrbitingHottestStar exoplanets = [] := by
  unfold getPlanetsOrbitingHottestStar
  rw [foldl_hottestStep_absent _ _ h]

/-- C8 at the test case `NoTemperatureData`: one record, no temperature. -/
theorem getPlanetsOrbitingHottestStar_absent_witness :
    getPlanetsOrbitingHottestStar [⟨"Planet1", 0, ⟨some 1⟩, ⟨some 2000⟩, ⟨none⟩⟩] = [] :=
  getPlanetsOrbitingHottestStar_absent _ (by simp)

/-! ## Timeline builder -/

theorem Timeline.index_insert (timeline : Timeline) (k y : Int) (group : planetGrouping) :
    Timeline.index (timeline.insert k group) y = if y = k then group else timeline.index y := by
  unfold Timeline.index
  by_cases h : y = k
  · subst h; simp [AList.lookup_insert]
  · simp [AList.lookup_insert_ne h, h]

theorem timelineStep_absent (timeline : Timeline) (planet : exoplanet)
    (h : hasYearAndRadius planet = false) : timelineStep timeline planet = timeline := by
  unfold timelineStep
  cases hy : planet.DiscoveryYear.Value with
  | none => rfl
  | some year =>
    cases hr : planet.RadiusJpt.Value with
    | none => rfl
    | some radius => simp [hasYearAndRadius, hy, hr] at h

theorem timelineStep_small (timeline : Timeline) (planet : exoplanet) (year radius : float64)
    (hy : planet.DiscoveryYear.Value = some year) (hr : planet.RadiusJpt.Value = some radius)
    (h : radius < 1) :
    timelineStep timeline planet
      = timeline.insert (intOfFloat64 year)
          { timeline.index (intOfFloat64 year) with
            smallSizePlanets := (timeline.index (intOfFloat64 year)).smallSizePlanets + 1 } := by
  simp [timelineStep, hy, hr, h]

theorem timelineStep_medium (timeline : Timeline) (planet : exoplanet) (year radius : float64)
    (hy : planet.DiscoveryYear.Value = some year) (hr : planet.RadiusJpt.Value = some radius)
    (h1 : 1 ≤ radius) (h2 : radius < 2) :
    timelineStep timeline planet
      = timeline.insert (intOfFloat64 year)
          { timeline.index (intOfFloat64 year) with
            mediumSizePlanets := (timeline.index (intOfFloat64 year)).mediumSizePlanets + 1 } := by
  simp [timelineStep, hy, hr, not_lt.2 h1, h2]

theorem timelineStep_large (timeline : Timeline) (planet : exoplanet) (year radius : float64)
    (hy : planet.DiscoveryYear.Value = some year) (hr : planet.RadiusJpt.Value = some radius)
    (h2 : 2 ≤ radius) :
    timelineStep timeline planet
      = timeline.insert (intOfFloat64 year)
          { timeline.index (intOfFloat64 year) with
            largeSizePlanets := (timeline.index (intOfFloat64 year)).largeSizePlanets + 1 } := by
  have h1 : ¬ radius < 1 := not_lt.2 (le_trans (by norm_num) h2)
  simp [timelineStep, hy, hr, h1, not_lt.2 h2]

/-- One pass of the loop body adds one to the counter of the record's bucket
in the record's year and leaves every other counter as it was. -/
theorem timelineStep_index (timeline : Timeline) (planet : exoplanet) (y : Int) :
    (timelineStep timeline planet).index y
      = ⟨(timeline.index y).smallSizePlanets + (if smallIn y planet then 1 else 0),
         (timeline.index y).mediumSizePlanets + (if mediumIn y planet then 1 else 0),
         (timeline.index y).largeSizePlanets + (if largeIn y planet then 1 else 0)⟩ := by
  cases hy : planet.DiscoveryYear.Value with
  | none =>
    rw [timelineStep_absent _ _ (by simp [hasYearAndRadius, hy])]
    simp [smallIn, mediumIn, largeIn, hy]
  | some year =>
    cases hr : planet.RadiusJpt.Value with
    | none =>
      rw [timelineStep_absent _ _ (by simp [hasYearAndRadius, hr])]
      simp [smallIn, mediumIn, largeIn, hy, hr]
    | some radius =>
      by_cases hk : y = intOfFloat64 year
      · subst hk
        by_cases h1 : radius < 1
        · have h2 : ¬ 2 ≤ radius := not_le.2 (lt_trans h1 (by norm_num))
          rw [timelineStep_small _ _ _ _ hy hr h1, Timeline.index_insert]
          simp [smallIn, mediumIn, largeIn, hy, hr, h1, h2, not_le.2 h1]
        · by_cases h2 : radius < 2
          · rw [timelineStep_medium _ _ _ _ hy hr (not_lt.1 h1) h2, Timeline.index_insert]
            simp [smallIn, mediumIn, largeIn, hy, hr, h1, h2, not_lt.1 h1, not_le.2 h2]
          · rw [timelineStep_large _ _ _ _ hy hr (not_lt.1 h2), Timeline.index_insert]
            simp [smallIn, mediumIn, largeIn, hy, hr, h1, h2, not_lt.1 h2]
      · have hk' : ¬ intOfFloat64 year = y := fun h => hk h.symm
        have hsame : (timelineStep timeline planet).index y = timeline.index y := by
          by_cases h1 : radius < 1
          · rw [timelineStep_small _ _ _ _ hy hr h1, Timeline.index_insert, if_neg hk]
          · by_cases h2 : radius < 2
            · rw [timelineStep_medium _ _ _ _ hy hr (not_lt.1 h1) h2, Timeline.index_insert,
                if_neg hk]
            · rw [timelineStep_large _ _ _ _ hy hr (not_lt.1 h2), Timeline.index_insert,
                if_neg hk]
        rw [hsame]
        simp [smallIn, mediumIn, largeIn, hy, hr, hk']

/-- The loop of `getTimeline`, started on any map, adds to the three counters
of a year the numbers of records of that year in each bucket. -/
theorem foldl_timelineStep_index (exoplanets : List exoplanet) (timeline : Timeline) (y : Int) :
    (exoplanets.foldl timelineStep timeline).index y
      = ⟨(timeline.index y).smallSizePlanets + (exoplanets.countP (smallIn y) : Nat),
         (timeline.index y).mediumSizePlanets + (exoplanets.countP (mediumIn y) : Nat),
         (timeline.index y).largeSizePlanets + (exoplanets.countP (largeIn y) : Nat)⟩ := by
  induction exoplanets generalizing timeline with
  | nil => simp
  | cons planet rest ih =>
    rw [List.foldl_cons, ih, timelineStep_index]
    simp only [List.countP_cons, Nat.cast_add, Nat.cast_ite, Nat.cast_one, Nat.cast_zero]
    congr 1 <;> ring

/-- The entry of `getTimeline` for a year `y`, in terms of the conversion
`int(x)`: its three counters are the numbers of records with present
`DiscoveryYear` that `int(x)` converts to `y` and present `RadiusJpt` below 1,
from 1 and below 2, and from 2. -/
theorem getTimeline_index (exoplanets : List exoplanet) (y : Int) :
    (getTimeline exoplanets).index y
      = ⟨(exoplanets.countP (smallIn y) : Nat), (exoplanets.countP (mediumIn y) : Nat),
         (exoplanets.countP (largeIn y) : Nat)⟩ := by
  unfold getTimeline
  rw [foldl_timelineStep_index]
  simp [Timeline.index]

theorem timelineStep_mem (timeline : Timeline) (planet : exoplanet) (y : Int) :
    y ∈ timelineStep timeline planet ↔ y ∈ timeline ∨ discoveredIn y planet = true := by
  cases hy : planet.DiscoveryYear.Value with
  | none =>
    rw [timelineStep_absent _ _ (by simp [hasYearAndRadius, hy])]
    simp [discoveredIn, hy]
  | some year =>
    cases hr : planet.RadiusJpt.Value with
    | none =>
      rw [timelineStep_absent _ _ (by simp [hasYearAndRadius, hr])]
      simp [discoveredIn, hy, hr]
    | some radius =>
      have hd : discoveredIn y planet = true ↔ y = intOfFloat64 year := by
        simp [discoveredIn, hy, hr, eq_comm]
      rw [hd]
      by_cases h1 : radius < 1
      · rw [timelineStep_small _ _ _ _ hy hr h1, AList.mem_insert]
        exact or_comm
      · by_cases h2 : radius < 2
        · rw [timelineStep_medium _ _ _ _ hy hr (not_lt.1 h1) h2, AList.mem_insert]
          exact or_comm
        · rw [timelineStep_large _ _ _ _ hy hr (not_lt.1 h2), AList.mem_insert]
          exact or_comm

/-- The keys after the loop: those of the starting map and the years of the
records that have both a year and a radius. -/
theorem foldl_timelineStep_mem (exoplanets : List exoplanet) (timeline : Timeline) (y : Int) :
    y ∈ exoplanets.foldl timelineStep timeline
      ↔ y ∈ timeline ∨ ∃ planet ∈ exoplanets, discoveredIn y planet = true := by
  induction exoplanets generalizing timeline with
  | nil => simp
  | cons planet rest ih =>
    rw [List.foldl_cons, ih, timelineStep_mem]
    simp only [List.mem_cons, exists_eq_or_imp, or_assoc]

theorem discoveredIn_iff (y : Int) (planet : exoplanet) :
    discoveredIn y planet = true
      ↔ ∃ year radius, planet.DiscoveryYear.Value = some year
          ∧ planet.RadiusJpt.Value = some radius ∧ intOfFloat64 year = y := by
  cases hy : planet.DiscoveryYear.Value with
  | none => simp [discoveredIn, hy]
  | some year =>
    cases hr : planet.RadiusJpt.Value with
    | none => simp [discoveredIn, hy, hr]
    | some radius => simp [discoveredIn, hy, hr]

/-- Records that lack a year or a radius leave the map of the loop as it
was. -/
theorem foldl_timelineStep_absent (exoplanets : List exoplanet) (timeline : Timeline)
    (h : ∀ planet ∈ exoplanets, hasYearAndRadius planet = false) :
    exoplanets.foldl timelineStep timeline = timeline := by
  induction exoplanets generalizing timeline with
  | nil => rfl
  | cons first rest ih =>
    rw [List.foldl_cons, timelineStep_absent _ _ (h first (List.mem_cons_self _ _))]
    exact ih timeline (fun planet hp => h planet (List.mem_cons_of_mem _ hp))

/-- The keys of `getTimeline`, in terms of the conversion `int(x)`: `y` is a
key if and only if some record of the list has both `DiscoveryYear` and
`RadiusJpt` present and a `DiscoveryYear` that `int(x)` converts to `y`; and a
list whose records all lack a year or a radius yields the empty map. -/
theorem getTimeline_keys (exoplanets : List exoplanet) (y : Int) :
    (y ∈ (getTimeline exoplanets).keys
      ↔ ∃ planet ∈ exoplanets, ∃ year radius, planet.DiscoveryYear.Value = some year
          ∧ planet.RadiusJpt.Value = some radius ∧ intOfFloat64 year = y)
    ∧ ((∀ planet ∈ exoplanets,
          planet.DiscoveryYear.Value = none ∨ planet.RadiusJpt.Value = none)
        → getTimeline exoplanets = ∅) := by
  constructor
  · rw [← AList.mem_keys]
    unfold getTimeline
    rw [foldl_timelineStep_mem]
    simp only [AList.not_mem_empty, false_or, discoveredIn_iff]
  · intro h
    unfold getTimeline
    apply foldl_timelineStep_absent
    intro planet hp
    rcases h planet hp with h1 | h1 <;> simp [hasYearAndRadius, h1]

/-- The test cases `NilYear` and `NilRadius` put together: a record without
year and a record without radius give the empty map. -/
theorem getTimeline_keys_witness :
    getTimeline [⟨"a", 0, ⟨some (1 / 2)⟩, ⟨none⟩, ⟨none⟩⟩,
      ⟨"b", 0, ⟨none⟩, ⟨some 2000⟩, ⟨none⟩⟩] = ∅ :=
  (getTimeline_keys _ 2000).2 (by simp)

/-- Removing a key from an association list lowers the sum of the entries'
totals by the total of the entry looked up under that key. -/
theorem sum_total_kerase (k : Int) (entries : List (Sigma fun _ : Int => planetGrouping)) :
    ((List.kerase k entries).map (fun entry => entry.2.total)).sum
      = (entries.map (fun entry => entry.2.total)).sum
          - ((List.dlookup k entries).getD ⟨0, 0, 0⟩).total := by
  induction entries with
  | nil => simp [planetGrouping.total]
  | cons entry rest ih =>
    obtain ⟨k', group⟩ := entry
    by_cases h : k = k'
    · subst h
      simp [List.kerase_cons_eq, List.dlookup_cons_eq]
    · rw [List.kerase_cons_ne h, List.dlookup_cons_ne _ _ h, List.map_cons, List.sum_cons, ih,
        List.map_cons, List.sum_cons]
      ring

theorem Timeline.total_insert (timeline : Timeline) (k : Int) (group : planetGrouping) :
    Timeline.total (timeline.insert k group)
      = timeline.total - (timeline.index k).total + group.total := by
  unfold Timeline.total Timeline.index
  rw [AList.insert_entries, List.map_cons, List.sum_cons, sum_total_kerase]
  simp only [AList.lookup]
  ring

/-- One pass of the loop body raises the number of planets of the timeline by
one for a record with year and radius, and by nothing otherwise. -/
theorem timelineStep_total (timeline : Timeline) (planet : exoplanet) :
    (timelineStep timeline planet).total
      = timeline.total + (if hasYearAndRadius planet then 1 else 0) := by
  cases hy : planet.DiscoveryYear.Value with
  | none =>
    rw [timelineStep_absent _ _ (by simp [hasYearAndRadius, hy])]
    simp [hasYearAndRadius, hy]
  | some year =>
    cases hr : planet.RadiusJpt.Value with
    | none =>
      rw [timelineStep_absent _ _ (by simp [hasYearAndRadius, hr])]
      simp [hasYearAndRadius, hy, hr]
    | some radius =>
      have hb : hasYearAndRadius planet = true := by simp [hasYearAndRadius, hy, hr]
      rw [hb, if_pos rfl]
      by_cases h1 : radius < 1
      · rw [timelineStep_small _ _ _ _ hy hr h1, Timeline.total_insert]
        simp only [planetGrouping.total]
        ring
      · by_cases h2 : radius < 2
        · rw [timelineStep_medium _ _ _ _ hy hr (not_lt.1 h1) h2, Timeline.total_insert]
          simp only [planetGrouping.total]
          ring
        · rw [timelineStep_large _ _ _ _ hy hr (not_lt.1 h2), Timeline.total_insert]
          simp only [planetGrouping.total]
          ring

theorem foldl_timelineStep_total (exoplanets : List exoplanet) (timeline : Timeline) :
    (exoplanets.foldl timelineStep timeline).total
      = timeline.total + (exoplanets.countP hasYearAndRadius : Nat) := by
  induction exoplanets generalizing timeline with
  | nil => simp
  | cons planet rest ih =>
    rw [List.foldl_cons, ih, timelineStep_total, List.countP_cons]
    push_cast
    ring

/-- C10: for every list of records, every counter in the map returned by
`getTimeline` is at least 0, and the sum of `smallSizePlanets +
mediumSizePlanets + largeSizePlanets` over all years of the map equals the
number of records of the list that have both `DiscoveryYear` and `RadiusJpt`
present. -/
theorem getTimeline_total (exoplanets : List exoplanet) :
    (∀ (y : Int) (group : planetGrouping), (getTimeline exoplanets).lookup y = some group →
        0 ≤ group.smallSizePlanets ∧ 0 ≤ group.mediumSizePlanets
          ∧ 0 ≤ group.largeSizePlanets)
    ∧ ((getTimeline exoplanets).entries.map
          (fun entry => entry.2.smallSizePlanets + entry.2.mediumSizePlanets
            + entry.2.largeSizePlanets)).sum
        = (exoplanets.countP
            (fun planet => planet.DiscoveryYear.Value.isSome && planet.RadiusJpt.Value.isSome)
            : Nat) := by
  constructor
  · intro y group hg
    have hidx := foldl_timelineStep_index exoplanets ∅ y
    have hgi : (exoplanets.foldl timelineStep ∅).index y = group := by
      simp only [getTimeline] at hg
      simp [Timeline.index, hg]
    rw [hgi] at hidx
    rw [hidx]
    simp only [Timeline.index, AList.lookup_empty, Option.getD_none, zero_add]
    exact ⟨Int.natCast_nonneg _, Int.natCast_nonneg _, Int.natCast_nonneg _⟩
  · have h := foldl_timelineStep_total exoplanets ∅
    simpa [Timeline.total, planetGrouping.total, getTimeline, hasYearAndRadius] using h

/-- C10 at one record of year 2000 with radius 0.5: the counters of the entry
for 2000 are at least 0. -/
theorem getTimeline_total_witness :
    (0 : Int) ≤ 0 + 1 ∧ (0 : Int) ≤ 0 ∧ (0 : Int) ≤ 0 :=
  (getTimeline_total [⟨"a", 0, ⟨some (1 / 2)⟩, ⟨some 2000⟩, ⟨none⟩⟩]).1
    (intOfFloat64 2000) ⟨0 + 1, 0, 0⟩
    (by
      simp only [getTimeline, List.foldl_cons, List.foldl_nil]
      rw [timelineStep_small ∅ _ 2000 (1 / 2) rfl rfl (by norm_num), AList.lookup_insert]
      rfl)

/-- Truncation toward zero is the quotient of numerator and denominator that
rounds toward zero. -/
theorem truncTowardZero_eq_tdiv (v : Rat) : truncTowardZero v = v.num.tdiv v.den := by
  unfold truncTowardZero
  by_cases h : 0 ≤ v
  · rw [if_pos h, Rat.floor_def]
    exact (Int.tdiv_eq_ediv (Rat.num_nonneg.2 h) (Int.natCast_nonneg _)).symm
  · rw [if_neg h]
    have hneg : 0 ≤ -v := by linarith [not_le.1 h]
    have h1 : ⌈v⌉ = -⌊-v⌋ := by rw [Int.floor_neg, neg_neg]
    rw [h1, Rat.floor_def, Rat.neg_num, Rat.neg_den,
      ← Int.tdiv_eq_ediv (by simpa using Rat.num_nonneg.2 hneg) (Int.natCast_nonneg _),
      Int.neg_tdiv, neg_neg]

/-- Within the range of `int` the conversion `int(x)` is truncation toward
zero. -/
theorem intOfFloat64_eq_trunc (v : float64) (h : fitsInt (truncTowardZero v)) :
    intOfFloat64 v = truncTowardZero v := by
  rw [truncTowardZero_eq_tdiv] at h ⊢
  unfold fitsInt at h
  simp only [intOfFloat64]
  rw [if_pos h]

/-- Outside the range of `int` the conversion gives the smallest `int`. -/
theorem intOfFloat64_overflow (v : float64) (h : ¬ fitsInt (truncTowardZero v)) :
    intOfFloat64 v = -9223372036854775808 := by
  rw [truncTowardZero_eq_tdiv] at h
  unfold fitsInt at h
  simp only [intOfFloat64]
  rw [if_neg h]

/-- The result of the conversion always fits `int`. -/
theorem intOfFloat64_fits (v : float64) : fitsInt (intOfFloat64 v) := by
  by_cases h : fitsInt (truncTowardZero v)
  · rw [intOfFloat64_eq_trunc v h]; exact h
  · rw [intOfFloat64_overflow v h]; unfold fitsInt; norm_num

theorem truncTowardZero_intCast (y : Int) : truncTowardZero (y : Rat) = y := by
  simp [truncTowardZero]

theorem intOfFloat64_intCast (y : Int) (h : fitsInt y) : intOfFloat64 (y : Rat) = y := by
  rw [intOfFloat64_eq_trunc _ (by rw [truncTowardZero_intCast]; exact h),
    truncTowardZero_intCast]

/-- The year `1e19` does not fit `int`: its truncation is `10^19` and its
conversion the smallest `int`. -/
theorem intOfFloat64_overflowYear :
    truncTowardZero 10000000000000000000 = 10000000000000000000
    ∧ intOfFloat64 10000000000000000000 = -9223372036854775808 := by
  have ht : truncTowardZero 10000000000000000000 = 10000000000000000000 :=
    truncTowardZero_intCast 10000000000000000000
  refine ⟨ht, intOfFloat64_overflow _ ?_⟩
  rw [ht]
  unfold fitsInt
  norm_num

/-- For every year `y` that fits `int`, a record with radius exactly 1 is
counted in the medium bucket and one with radius exactly 2 in the large
bucket: the single-record list `[(y, 1.0)]` yields
`{y: small 0, medium 1, large 0}` and `[(y, 2.0)]` yields
`{y: small 0, medium 0, large 1}`, and the three records `(2000, 0.5)`,
`(2000, 1.0)`, `(2000, 2.0)` yield `{2000: small 1, medium 1, large 1}`,
whatever the other fields of the records are. -/
theorem getTimeline_boundary (y : Int) (hy : fitsInt y) (id₁ id₂ id₃ : String)
    (flag₁ flag₂ flag₃ : typeFlag) (temp₁ temp₂ temp₃ : nillableFloat) :
    getTimeline [⟨id₁, flag₁, ⟨some 1⟩, ⟨some (y : Rat)⟩, temp₁⟩] = AList.singleton y ⟨0, 1, 0⟩
    ∧ getTimeline [⟨id₁, flag₁, ⟨some 2⟩, ⟨some (y : Rat)⟩, temp₁⟩]
        = AList.singleton y ⟨0, 0, 1⟩
    ∧ getTimeline [⟨id₁, flag₁, ⟨some (1 / 2)⟩, ⟨some 2000⟩, temp₁⟩,
        ⟨id₂, flag₂, ⟨some 1⟩, ⟨some 2000⟩, temp₂⟩, ⟨id₃, flag₃, ⟨some 2⟩, ⟨some 2000⟩, temp₃⟩]
        = AList.singleton 2000 ⟨1, 1, 1⟩ := by
  have h2000 : intOfFloat64 (2000 : Rat) = 2000 :=
    intOfFloat64_intCast 2000 (by unfold fitsInt; norm_num)
  have hzero : Timeline.index ∅ y = ⟨0, 0, 0⟩ := rfl
  have hzero' : Timeline.index ∅ 2000 = ⟨0, 0, 0⟩ := rfl
  refine ⟨?_, ?_, ?_⟩
  · simp only [getTimeline, List.foldl_cons, List.foldl_nil]
    rw [timelineStep_medium ∅ _ y 1 rfl rfl (by norm_num) (by norm_num),
      intOfFloat64_intCast y hy, hzero, AList.insert_empty]
    rfl
  · simp only [getTimeline, List.foldl_cons, List.foldl_nil]
    rw [timelineStep_large ∅ _ y 2 rfl rfl (by norm_num), intOfFloat64_intCast y hy,
      hzero, AList.insert_empty]
    rfl
  · simp only [getTimeline, List.foldl_cons, List.foldl_nil]
    rw [timelineStep_small ∅ _ 2000 (1 / 2) rfl rfl (by norm_num),
      timelineStep_medium _ ⟨id₂, flag₂, ⟨some 1⟩, ⟨some 2000⟩, temp₂⟩ 2000 1 rfl rfl
        (by norm_num) (by norm_num),
      timelineStep_large _ ⟨id₃, flag₃, ⟨some 2⟩, ⟨some 2000⟩, temp₃⟩ 2000 2 rfl rfl
        (by norm_num), h2000]
    simp only [Timeline.index_insert, if_true, AList.insert_insert, hzero', AList.insert_empty]
    rfl

/-- C7: at the failing input, the single-record lists `[(1e19, 1.0)]` and
`[(1e19, 2.0)]`, `getTimeline` counts the record in the medium and in the
large bucket, but under the key `-9223372036854775808`, the smallest `int`,
and not under the year of the record: `int(*year)` does not keep a year that
does not fit `int`. -/
theorem overflowYear_boundary :
    getTimeline [⟨"", 0, ⟨some 1⟩, ⟨some 10000000000000000000⟩, ⟨none⟩⟩]
        = AList.singleton (-9223372036854775808) ⟨0, 1, 0⟩
    ∧ getTimeline [⟨"", 0, ⟨some 2⟩, ⟨some 10000000000000000000⟩, ⟨none⟩⟩]
        = AList.singleton (-9223372036854775808) ⟨0, 0, 1⟩
    ∧ (10000000000000000000 : Int) ≠ -9223372036854775808 := by
  have hzero : Timeline.index ∅ (-9223372036854775808) = ⟨0, 0, 0⟩ := rfl
  refine ⟨?_, ?_, by norm_num⟩
  · simp only [getTimeline, List.foldl_cons, List.foldl_nil]
    rw [timelineStep_medium ∅ _ 10000000000000000000 1 rfl rfl (by norm_num) (by norm_num),
      intOfFloat64_overflowYear.2, hzero, AList.insert_empty]
    rfl
  · simp only [getTimeline, List.foldl_cons, List.foldl_nil]
    rw [timelineStep_large ∅ _ 10000000000000000000 2 rfl rfl (by norm_num),
      intOfFloat64_overflowYear.2, hzero, AList.insert_empty]
    rfl

/-! ## Timeline printer -/

theorem foldl_append_singleton {α β : Type} (f : α → β) (xs : List α) (init : List β) :
    xs.foldl (fun out x => out ++ [f x]) init = init ++ xs.map f := by
  induction xs generalizing init with
  | nil => simp
  | cons x rest ih => simp [ih]

/-- The lines written are those of the keys in sorted order. -/
theorem printTimeline_eq_map (timeline : Timeline) :
    printTimeline timeline
      = (slicesSort timeline.keys).map (fun year => timelineLine year (timeline.index year)) := by
  unfold printTimeline
  have hkeys : timeline.keys.foldl (fun years year => years ++ [year]) [] = timeline.keys := by
    have := foldl_append_singleton (fun year : Int => year) timeline.keys []
    simpa using this
  simp only [hkeys]
  rw [foldl_append_singleton]
  simp

theorem slicesSort_perm (years : List Int) : (slicesSort years).Perm years :=
  List.perm_insertionSort _ _

theorem slicesSort_sorted (years : List Int) : (slicesSort years).Sorted (· ≤ ·) :=
  List.sorted_insertionSort _ _

theorem slicesSort_eq_of_perm (years years' : List Int) (h : years.Perm years') :
    slicesSort years = slicesSort years' :=
  List.eq_of_perm_of_sorted
    (((slicesSort_perm years).trans h).trans (slicesSort_perm years').symm)
    (slicesSort_sorted years) (slicesSort_sorted years')

/-- C5: for every timeline map `printTimeline` writes exactly one line per key
of the map, the line of each year being that of its entry, and the years of
successive lines are strictly ascending; the output does not depend on the
order in which the map yields its keys, and for the empty (or nil) timeline
nothing is written. -/
theorem printTimeline_ascending (timeline : Timeline) :
    (∃ years : List Int, years.Perm timeline.keys ∧ years.Sorted (· < ·)
        ∧ printTimeline timeline
            = years.map (fun year => timelineLine year (timeline.index year)))
    ∧ (printTimeline timeline).length = timeline.keys.length
    ∧ (∀ timeline' : Timeline, timeline'.entries.Perm timeline.entries →
        printTimeline timeline' = printTimeline timeline)
    ∧ printTimeline ∅ = [] := by
  refine ⟨⟨slicesSort timeline.keys, slicesSort_perm _, ?_, printTimeline_eq_map _⟩, ?_, ?_, rfl⟩
  · exact (slicesSort_sorted _).lt_of_le
      ((slicesSort_perm timeline.keys).nodup_iff.2 timeline.keys_nodup)
  · rw [printTimeline_eq_map, List.length_map]
    exact (slicesSort_perm _).length_eq
  · intro timeline' hperm
    have hkeys : timeline'.keys.Perm timeline.keys := hperm.map Sigma.fst
    rw [printTimeline_eq_map, printTimeline_eq_map, slicesSort_eq_of_perm _ _ hkeys]
    apply List.map_congr_left
    intro year _
    simp only [Timeline.index, AList.perm_lookup hperm]

/-- C5 at the timeline of the test case `Multiple entries out of order` and a
reordering of it: the same lines are written. -/
theorem printTimeline_ascending_witness :
    printTimeline reorderedTimeline = printTimeline unorderedTimeline :=
  (printTimeline_ascending unorderedTimeline).2.2.1 reorderedTimeline
    (by
      show List.Perm [_, _, _] [_, _, _]
      exact (List.Perm.swap _ _ _).trans (List.Perm.cons _ (List.Perm.swap _ _ _)))

/-! ## Optional numeric field -/

mutual
/-- The decoder succeeds exactly on the values all of whose numbers fit, and
then stores a `float64` exactly for a number. -/
theorem jsonUnmarshalAny_fit : ∀ j : JSONValue,
    (j.numbersFit = true →
      ∃ v, jsonUnmarshalAny j = .ok v ∧ v.isFloat64 = j.isNumber)
    ∧ (j.numbersFit = false → ∃ e, jsonUnmarshalAny j = .error e)
  | .null => by simp [jsonUnmarshalAny, JSONValue.numbersFit, GoAny.isFloat64, JSONValue.isNumber]
  | .bool _ => by
    simp [jsonUnmarshalAny, JSONValue.numbersFit, GoAny.isFloat64, JSONValue.isNumber]
  | .string _ => by
    simp [jsonUnmarshalAny, JSONValue.numbersFit, GoAny.isFloat64, JSONValue.isNumber]
  | .number q _ => by
    by_cases h : overflowsFloat64 q = true
    · simp [jsonUnmarshalAny, JSONValue.numbersFit, convertNumber, h]
    · simp [jsonUnmarshalAny, JSONValue.numbersFit, convertNumber, h, GoAny.isFloat64,
        JSONValue.isNumber]
  | .array elems => by
    have ih := jsonUnmarshalElems_fit elems
    constructor
    · intro h
      obtain ⟨vs, hvs⟩ := ih.1 (by simpa [JSONValue.numbersFit] using h)
      exact ⟨.slice vs, by simp [jsonUnmarshalAny, hvs], rfl⟩
    · intro h
      obtain ⟨e, he⟩ := ih.2 (by simpa [JSONValue.numbersFit] using h)
      exact ⟨e, by simp [jsonUnmarshalAny, he]⟩
  | .object members => by
    have ih := jsonUnmarshalMembers_fit members
    constructor
    · intro h
      obtain ⟨kvs, hkvs⟩ := ih.1 (by simpa [JSONValue.numbersFit] using h)
      exact ⟨.map kvs, by simp [jsonUnmarshalAny, hkvs], rfl⟩
    · intro h
      obtain ⟨e, he⟩ := ih.2 (by simpa [JSONValue.numbersFit] using h)
      exact ⟨e, by simp [jsonUnmarshalAny, he]⟩
theorem jsonUnmarshalElems_fit : ∀ elems : List JSONValue,
    (elemsFit elems = true → ∃ vs, jsonUnmarshalElems elems = .ok vs)
    ∧ (elemsFit elems = false → ∃ e, jsonUnmarshalElems elems = .error e)
  | [] => by simp [elemsFit, jsonUnmarshalElems]
  | x :: xs => by
    have ihx := jsonUnmarshalAny_fit x
    have ihxs := jsonUnmarshalElems_fit xs
    cases hx : x.numbersFit with
    | false =>
      obtain ⟨e, he⟩ := ihx.2 hx
      simp [elemsFit, jsonUnmarshalElems, hx, he]
    | true =>
      obtain ⟨v, hv, _⟩ := ihx.1 hx
      cases hxs : elemsFit xs with
      | false =>
        obtain ⟨e, he⟩ := ihxs.2 hxs
        simp [elemsFit, jsonUnmarshalElems, hx, hxs, hv, he]
      | true =>
        obtain ⟨vs, hvs⟩ := ihxs.1 hxs
        simp [elemsFit, jsonUnmarshalElems, hx, hxs, hv, hvs]
theorem jsonUnmarshalMembers_fit : ∀ members : List (String × JSONValue),
    (membersFit members = true → ∃ kvs, jsonUnmarshalMembers members = .ok kvs)
    ∧ (membersFit members = false → ∃ e, jsonUnmarshalMembers members = .error e)
  | [] => by simp [membersFit, jsonUnmarshalMembers]
  | (k, x) :: xs => by
    have ihx := jsonUnmarshalAny_fit x
    have ihxs := jsonUnmarshalMembers_fit xs
    cases hx : x.numbersFit with
    | false =>
      obtain ⟨e, he⟩ := ihx.2 hx
      simp [membersFit, jsonUnmarshalMembers, hx, he]
    | true =>
      obtain ⟨v, hv, _⟩ := ihx.1 hx
      cases hxs : membersFit xs with
      | false =>
        obtain ⟨e, he⟩ := ihxs.2 hxs
        simp [membersFit, jsonUnmarshalMembers, hx, hxs, hv, he]
      | true =>
        obtain ⟨kvs, hkvs⟩ := ihxs.1 hxs
        simp [membersFit, jsonUnmarshalMembers, hx, hxs, hv, hkvs]
end

/-- For every JSON value `j` that the scanner accepts (nested no deeper than
`maxNestingDepth`) and all of whose numbers, at any depth, fit `float64`,
`nillableFloat.UnmarshalJSON` returns no error, and the resulting `Value` is
present, holding the `float64` nearest to the number, if and only if `j` is a
JSON number; for `null`, booleans, strings, arrays and objects it is
absent. -/
theorem UnmarshalJSON_fit (nf : nillableFloat) (j : JSONValue) (hvalid : j.valid = true)
    (h : j.numbersFit = true) :
    (nf.UnmarshalJSON j).2 = none
    ∧ (nf.UnmarshalJSON j).1.Value
        = (match j with
          | .number q _ => some (roundFloat64 q)
          | _ => none)
    ∧ ((∃ v, (nf.UnmarshalJSON j).1.Value = some v) ↔ ∃ q b, j = .number q b) := by
  cases j with
  | number q b =>
    have hq : overflowsFloat64 q = false := by simpa [JSONValue.numbersFit] using h
    simp [nillableFloat.UnmarshalJSON, jsonUnmarshal, hvalid, jsonUnmarshalAny, convertNumber, hq]
  | null => simp [nillableFloat.UnmarshalJSON, jsonUnmarshal, hvalid, jsonUnmarshalAny]
  | bool b => simp [nillableFloat.UnmarshalJSON, jsonUnmarshal, hvalid, jsonUnmarshalAny]
  | string s => simp [nillableFloat.UnmarshalJSON, jsonUnmarshal, hvalid, jsonUnmarshalAny]
  | array elems =>
    obtain ⟨v, hv, hk⟩ := (jsonUnmarshalAny_fit (.array elems)).1 h
    cases v <;>
      simp_all [nillableFloat.UnmarshalJSON, jsonUnmarshal, GoAny.isFloat64, JSONValue.isNumber]
  | object members =>
    obtain ⟨v, hv, hk⟩ := (jsonUnmarshalAny_fit (.object members)).1 h
    cases v <;>
      simp_all [nillableFloat.UnmarshalJSON, jsonUnmarshal, GoAny.isFloat64, JSONValue.isNumber]

/-- The test case `Valid integer treated as float`: the text `67`. -/
theorem UnmarshalJSON_fit_witness :
    (nillableFloat.UnmarshalJSON ⟨none⟩ (.number 67 true)).2 = none
    ∧ (nillableFloat.UnmarshalJSON ⟨none⟩ (.number 67 true)).1.Value = some (roundFloat64 67)
    ∧ ((∃ v, (nillableFloat.UnmarshalJSON ⟨none⟩ (.number 67 true)).1.Value = some v)
        ↔ ∃ q b, JSONValue.number 67 true = .number q b) :=
  UnmarshalJSON_fit ⟨none⟩ (.number 67 true) (by decide) (by
    simp only [JSONValue.numbersFit, overflowsFloat64]
    norm_num)

/-- C4: at the failing input, the well-formed JSON number `1e400`, which the
scanner accepts, `nillableFloat.UnmarshalJSON` returns an error, the
`UnmarshalTypeError` of `json.Unmarshal` for a number that overflows
`float64`, and the `Value` of a fresh receiver stays absent although the text
is a number. -/
theorem UnmarshalJSON_overflow :
    (JSONValue.number (10 ^ 400) false).valid = true
    ∧ (nillableFloat.UnmarshalJSON ⟨none⟩ (.number (10 ^ 400) false)).2
        = some (.TypeError ⟨10 ^ 400⟩)
    ∧ (nillableFloat.UnmarshalJSON ⟨none⟩ (.number (10 ^ 400) false)).1.Value = none := by
  have h : overflowsFloat64 (10 ^ 400) = true := by
    simp only [overflowsFloat64]
    norm_num
  have hv : (JSONValue.number (10 ^ 400) false).valid = true := by
    simp [JSONValue.valid, JSONValue.nesting]
  simp [nillableFloat.UnmarshalJSON, jsonUnmarshal, hv, jsonUnmarshalAny, convertNumber, h]

/-! ## Truncation of the discovery year -/

/-- One pass of the loop body adds one planet to the entry of the year the
record is discovered in, and none to any other entry. -/
theorem timelineStep_index_total (timeline : Timeline) (planet : exoplanet) (y : Int) :
    ((timelineStep timeline planet).index y).total
      = (timeline.index y).total + (if discoveredIn y planet then 1 else 0) := by
  rw [timelineStep_index]
  cases hy : planet.DiscoveryYear.Value with
  | none => simp [planetGrouping.total, smallIn, mediumIn, largeIn, discoveredIn, hy]
  | some year =>
    cases hr : planet.RadiusJpt.Value with
    | none => simp [planetGrouping.total, smallIn, mediumIn, largeIn, discoveredIn, hy, hr]
    | some radius =>
      by_cases hk : intOfFloat64 year = y
      · by_cases h1 : radius < 1
        · have h2 : ¬ 2 ≤ radius := not_le.2 (lt_trans h1 (by norm_num))
          simp [planetGrouping.total, smallIn, mediumIn, largeIn, discoveredIn, hy, hr, hk, h1,
            h2, not_le.2 h1]
          ring
        · by_cases h2 : radius < 2
          · simp [planetGrouping.total, smallIn, mediumIn, largeIn, discoveredIn, hy, hr, hk, h1,
              h2, not_lt.1 h1, not_le.2 h2]
            ring
          · simp [planetGrouping.total, smallIn, mediumIn, largeIn, discoveredIn, hy, hr, hk, h1,
              h2, not_lt.1 h2]
            ring
      · simp [planetGrouping.total, smallIn, mediumIn, largeIn, discoveredIn, hy, hr, hk]

/-- Within the range of `int`, `getTimeline` maps a record's `DiscoveryYear`
value `v` to the integer key obtained by truncating `v` toward zero: for every
record of the list with present radius and present year `v` whose truncation
fits `int`, the conversion of `v` is that truncation, the truncation is a key
of the result, and one pass of the loop body on the record adds one planet to
the entry of that key and none to the entry of any other; the years 2000.2 and
2000.9 convert to 2000 and the years -0.5 and 0.5 to 0. -/
theorem getTimeline_truncates (exoplanets : List exoplanet) (planet : exoplanet)
    (v radius : float64) (hp : planet ∈ exoplanets)
    (hy : planet.DiscoveryYear.Value = some v) (hr : planet.RadiusJpt.Value = some radius)
    (hfit : fitsInt (truncTowardZero v)) :
    intOfFloat64 v = truncTowardZero v
    ∧ truncTowardZero v ∈ (getTimeline exoplanets).keys
    ∧ (∀ (timeline : Timeline) (y : Int),
        ((timelineStep timeline planet).index y).total
          = (timeline.index y).total + (if y = truncTowardZero v then 1 else 0))
    ∧ intOfFloat64 (10001 / 5) = 2000 ∧ intOfFloat64 (20009 / 10) = 2000
    ∧ intOfFloat64 (-1 / 2) = 0 ∧ intOfFloat64 (1 / 2) = 0 := by
  have hd : ∀ y : Int, discoveredIn y planet = true ↔ y = truncTowardZero v := by
    intro y
    simp [discoveredIn, hy, hr, intOfFloat64_eq_trunc v hfit, eq_comm]
  have h1 : truncTowardZero (10001 / 5) = 2000 := by simp only [truncTowardZero]; norm_num
  have h2 : truncTowardZero (20009 / 10) = 2000 := by simp only [truncTowardZero]; norm_num
  have h3 : truncTowardZero (-1 / 2) = 0 := by simp only [truncTowardZero]; norm_num
  have h4 : truncTowardZero (1 / 2) = 0 := by simp only [truncTowardZero]; norm_num
  refine ⟨intOfFloat64_eq_trunc v hfit, ?_, ?_, ?_, ?_, ?_, ?_⟩
  · rw [← AList.mem_keys]
    unfold getTimeline
    rw [foldl_timelineStep_mem]
    exact Or.inr ⟨planet, hp, (hd _).2 rfl⟩
  · intro timeline y
    rw [timelineStep_index_total]
    by_cases h : y = truncTowardZero v
    · rw [if_pos ((hd y).2 h), if_pos h]
    · rw [if_neg (fun hh => h ((hd y).1 hh)), if_neg h]
  · rw [intOfFloat64_eq_trunc _ (by rw [h1]; unfold fitsInt; norm_num), h1]
  · rw [intOfFloat64_eq_trunc _ (by rw [h2]; unfold fitsInt; norm_num), h2]
  · rw [intOfFloat64_eq_trunc _ (by rw [h3]; unfold fitsInt; norm_num), h3]
  · rw [intOfFloat64_eq_trunc _ (by rw [h4]; unfold fitsInt; norm_num), h4]

/-- C11: at the failing input, one record of radius 1 with the discovery year
`1e19`, the truncation of the year toward zero is `10^19`, but `int(*year)`
gives `-9223372036854775808` and `getTimeline` files the record under that
key: the only key of the result is the smallest `int`, with the record in its
medium bucket, and the truncation of the year is not a key. -/
theorem overflowYear_conversion :
    truncTowardZero 10000000000000000000 = 10000000000000000000
    ∧ intOfFloat64 10000000000000000000 = -9223372036854775808
    ∧ (getTimeline [⟨"", 0, ⟨some 1⟩, ⟨some 10000000000000000000⟩, ⟨none⟩⟩]).keys
        = [-9223372036854775808]
    ∧ (getTimeline [⟨"", 0, ⟨some 1⟩, ⟨some 10000000000000000000⟩, ⟨none⟩⟩]).index
          (-9223372036854775808) = ⟨0, 1, 0⟩
    ∧ truncTowardZero 10000000000000000000
        ∉ (getTimeline [⟨"", 0, ⟨some 1⟩, ⟨some 10000000000000000000⟩, ⟨none⟩⟩]).keys := by
  have hzero : Timeline.index ∅ (-9223372036854775808) = ⟨0, 0, 0⟩ := rfl
  have hmap : getTimeline [⟨"", 0, ⟨some 1⟩, ⟨some 10000000000000000000⟩, ⟨none⟩⟩]
      = AList.singleton (-9223372036854775808) ⟨0, 1, 0⟩ := by
    simp only [getTimeline, List.foldl_cons, List.foldl_nil]
    rw [timelineStep_medium ∅ _ 10000000000000000000 1 rfl rfl (by norm_num) (by norm_num),
      intOfFloat64_overflowYear.2, hzero, AList.insert_empty]
    rfl
  refine ⟨intOfFloat64_overflowYear.1, intOfFloat64_overflowYear.2, ?_, ?_, ?_⟩
  · rw [hmap, AList.keys_singleton]
  · rw [hmap]; rfl
  · rw [hmap, AList.keys_singleton, intOfFloat64_overflowYear.1]
    norm_num

/-- For a record whose year fits `int`, the three buckets of a year are those
of the truncation of the record's year. -/
theorem bucketIn_eq_trunc (y : Int) (planet : exoplanet)
    (h : ∀ year, planet.DiscoveryYear.Value = some year → fitsInt (truncTowardZero year)) :
    smallIn y planet = truncSmallIn y planet
    ∧ mediumIn y planet = truncMediumIn y planet
    ∧ largeIn y planet = truncLargeIn y planet := by
  cases hy : planet.DiscoveryYear.Value with
  | none => simp [smallIn, mediumIn, largeIn, truncSmallIn, truncMediumIn, truncLargeIn, hy]
  | some year =>
    cases hr : planet.RadiusJpt.Value with
    | none =>
      simp [smallIn, mediumIn, largeIn, truncSmallIn, truncMediumIn, truncLargeIn, hy, hr]
    | some radius =>
      simp [smallIn, mediumIn, largeIn, truncSmallIn, truncMediumIn, truncLargeIn, hy, hr,
        intOfFloat64_eq_trunc year (h year hy)]

/-- For every list of records whose present years fit `int` and every integer
year `y`, the entry of `getTimeline` for `y` has `smallSizePlanets` equal to
the number of records with present `DiscoveryYear` truncating to `y` and
present `RadiusJpt < 1`, `mediumSizePlanets` equal to the number of such
records with `1 <= RadiusJpt < 2`, and `largeSizePlanets` equal to the number
of such records with `RadiusJpt >= 2`. -/
theorem getTimeline_index_fits (exoplanets : List exoplanet) (h : yearsFitInt exoplanets)
    (y : Int) :
    (getTimeline exoplanets).index y
      = ⟨(exoplanets.countP (truncSmallIn y) : Nat),
         (exoplanets.countP (truncMediumIn y) : Nat),
         (exoplanets.countP (truncLargeIn y) : Nat)⟩ := by
  have hs : exoplanets.countP (smallIn y) = exoplanets.countP (truncSmallIn y) :=
    List.countP_congr (fun planet hp => by rw [(bucketIn_eq_trunc y planet (h planet hp)).1])
  have hm : exoplanets.countP (mediumIn y) = exoplanets.countP (truncMediumIn y) :=
    List.countP_congr (fun planet hp => by rw [(bucketIn_eq_trunc y planet (h planet hp)).2.1])
  have hl : exoplanets.countP (largeIn y) = exoplanets.countP (truncLargeIn y) :=
    List.countP_congr (fun planet hp => by rw [(bucketIn_eq_trunc y planet (h planet hp)).2.2])
  rw [getTimeline_index, hs, hm, hl]

/-- For every list of records whose present years fit `int` and every integer
`y`, `y` is a key of the map returned by `getTimeline` if and only if some
record of the list has both `DiscoveryYear` and `RadiusJpt` present and a
`DiscoveryYear` that truncates to `y`. -/
theorem getTimeline_keys_fits (exoplanets : List exoplanet) (h : yearsFitInt exoplanets)
    (y : Int) :
    y ∈ (getTimeline exoplanets).keys
      ↔ ∃ planet ∈ exoplanets, ∃ year radius, planet.DiscoveryYear.Value = some year
          ∧ planet.RadiusJpt.Value = some radius ∧ truncTowardZero year = y := by
  rw [(getTimeline_keys exoplanets y).1]
  constructor
  · rintro ⟨planet, hp, year, radius, hy, hr, hk⟩
    exact ⟨planet, hp, year, radius, hy, hr,
      by rw [← intOfFloat64_eq_trunc year (h planet hp year hy)]; exact hk⟩
  · rintro ⟨planet, hp, year, radius, hy, hr, hk⟩
    exact ⟨planet, hp, year, radius, hy, hr,
      by rw [intOfFloat64_eq_trunc year (h planet hp year hy)]; exact hk⟩

/-- The map `getTimeline` builds from the catalog with the year `1e19`. -/
theorem getTimeline_overflowYearCatalog :
    getTimeline overflowYearCatalog = AList.singleton (-9223372036854775808) ⟨1, 0, 0⟩ := by
  have hzero : Timeline.index ∅ (-9223372036854775808) = ⟨0, 0, 0⟩ := rfl
  simp only [overflowYearCatalog, getTimeline, List.foldl_cons, List.foldl_nil]
  rw [timelineStep_small ∅ _ 10000000000000000000 (1 / 2) rfl rfl (by norm_num),
    intOfFloat64_overflowYear.2, hzero, AList.insert_empty]
  rfl

/-- C2: at the failing input, one record of radius 0.5 with the discovery year
`1e19`, the entry of `getTimeline` for the year `-9223372036854775808` has
`smallSizePlanets` 1, although the number of records with a `DiscoveryYear`
truncating to that year and a `RadiusJpt < 1` is 0: the year of the record
truncates to `10^19`. -/
theorem overflowYear_entry :
    (getTimeline overflowYearCatalog).index (-9223372036854775808) = ⟨1, 0, 0⟩
    ∧ overflowYearCatalog.countP (truncSmallIn (-9223372036854775808)) = 0
    ∧ overflowYearCatalog.countP (truncSmallIn 10000000000000000000) = 1 := by
  refine ⟨?_, ?_, ?_⟩
  · rw [getTimeline_overflowYearCatalog]; rfl
  · simp [overflowYearCatalog, truncSmallIn, intOfFloat64_overflowYear.1]
  · have hhalf : (2⁻¹ : Rat) < 1 := by norm_num
    simp [overflowYearCatalog, truncSmallIn, intOfFloat64_overflowYear.1, hhalf]

/-- C6: at the failing input, one record of radius 0.5 with the discovery year
`1e19`, the year `-9223372036854775808` is a key of the map returned by
`getTimeline` although no record has a `DiscoveryYear` that truncates to it,
and `10^19`, to which the year of the record truncates, is not a key. -/
theorem overflowYear_key :
    -9223372036854775808 ∈ (getTimeline overflowYearCatalog).keys
    ∧ (¬ ∃ planet ∈ overflowYearCatalog, ∃ year radius,
          planet.DiscoveryYear.Value = some year ∧ planet.RadiusJpt.Value = some radius
            ∧ truncTowardZero year = -9223372036854775808)
    ∧ (∃ planet ∈ overflowYearCatalog, ∃ year radius,
          planet.DiscoveryYear.Value = some year ∧ planet.RadiusJpt.Value = some radius
            ∧ truncTowardZero year = 10000000000000000000)
    ∧ (10000000000000000000 : Int) ∉ (getTimeline overflowYearCatalog).keys := by
  refine ⟨?_, ?_, ?_, ?_⟩
  · rw [getTimeline_overflowYearCatalog, AList.keys_singleton]
    exact List.mem_singleton.2 rfl
  · rintro ⟨planet, hp, year, radius, hy, _, hk⟩
    simp only [overflowYearCatalog, List.mem_singleton] at hp
    subst hp
    have hyear : year = 10000000000000000000 := (Option.some.inj hy).symm
    rw [hyear, intOfFloat64_overflowYear.1] at hk
    norm_num at hk
  · exact ⟨_, List.mem_singleton.2 rfl, 10000000000000000000, 1 / 2, rfl, rfl,
      intOfFloat64_overflowYear.1⟩
  · rw [getTimeline_overflowYearCatalog, AList.keys_singleton]
    norm_num

/-! ## Format of the timeline lines -/

/-- The line `fmt.Println` builds from the nine operands of `printTimeline` is
the line of the specification. -/
theorem timelineLine_eq_specLine (year : Int) (group : planetGrouping) :
    timelineLine year group = specLine year group := by
  simp [timelineLine, specLine, Println, String.intercalate, String.intercalate.go,
    String.append_assoc]

/-- C12: for every timeline and every key `y` with group `(s, m, l)`, the line
`printTimeline` writes for `y` is exactly `In <y> we discovered <s> small
planets, <m> medium planets, and <l> large planets.` followed by a line break,
the four numbers in decimal and single spaces between the parts: the lines
written are exactly these lines of the entries of the map, and the timeline
`{2025: (2, 1, 3)}` gives the one line of the test. -/
theorem printTimeline_line_format (timeline : Timeline) :
    (∀ line : String, line ∈ printTimeline timeline
        ↔ ∃ (y : Int) (group : planetGrouping), timeline.lookup y = some group
            ∧ line = "In " ++ toString y ++ " we discovered "
                ++ toString group.smallSizePlanets ++ " small planets, "
                ++ toString group.mediumSizePlanets ++ " medium planets, and "
                ++ toString group.largeSizePlanets ++ " large planets.\n")
    ∧ printTimeline (AList.singleton 2025 ⟨2, 1, 3⟩)
        = ["In 2025 we discovered 2 small planets, 1 medium planets, and 3 large planets.\n"] := by
  constructor
  · intro line
    rw [printTimeline_eq_map, List.mem_map]
    constructor
    · rintro ⟨y, hy, rfl⟩
      have hmem : y ∈ timeline.keys := (slicesSort_perm timeline.keys).mem_iff.1 hy
      have hsome : (timeline.lookup y).isSome := AList.lookup_isSome.2 (AList.mem_keys.2 hmem)
      obtain ⟨group, hg⟩ := Option.isSome_iff_exists.1 hsome
      refine ⟨y, group, hg, ?_⟩
      rw [timelineLine_eq_specLine]
      simp [Timeline.index, hg, specLine]
    · rintro ⟨y, group, hg, rfl⟩
      have hmem : y ∈ timeline.keys :=
        AList.mem_keys.1 (AList.lookup_isSome.1 (by simp [hg]))
      refine ⟨y, (slicesSort_perm timeline.keys).mem_iff.2 hmem, ?_⟩
      rw [timelineLine_eq_specLine]
      simp [Timeline.index, hg, specLine]
  · decide

/-! ## Hottest-star planet finder: the initial value of the maximum -/

/-- C18: for every list of records in which at least one present
`HostStarTempK` is at least `-1`, `getPlanetsOrbitingHottestStar` returns a
result that is not empty and is exactly the identifiers of the records whose
temperature equals the maximum present temperature, in input order. -/
theorem getPlanetsOrbitingHottestStar_max (exoplanets : List exoplanet)
    (h : ∃ planet ∈ exoplanets, ∃ t, planet.HostStarTempK.Value = some t ∧ -1 ≤ t) :
    ∃ M : float64,
      (∃ planet ∈ exoplanets, planet.HostStarTempK.Value = some M)
      ∧ (∀ planet ∈ exoplanets, ∀ t, planet.HostStarTempK.Value = some t → t ≤ M)
      ∧ getPlanetsOrbitingHottestStar exoplanets = idsAtTemp M exoplanets
      ∧ getPlanetsOrbitingHottestStar exoplanets ≠ [] := by
  obtain ⟨warm, hwarm, t, ht, hge⟩ := h
  have hatt : ∃ planet ∈ exoplanets, planet.HostStarTempK.Value
      = some (exoplanets.foldl hottestStep ([], (-1 : Rat))).2 := by
    rcases hottestTemp_attained exoplanets [] (-1 : Rat) with hm | hm
    · have hle := hottestTemp_upper exoplanets [] (-1 : Rat) warm hwarm t ht
      rw [hm] at hle
      have hteq : t = -1 := le_antisymm hle hge
      exact ⟨warm, hwarm, by rw [hm, ← hteq]; exact ht⟩
    · exact hm
  have hres : getPlanetsOrbitingHottestStar exoplanets
      = idsAtTemp (exoplanets.foldl hottestStep ([], (-1 : Rat))).2 exoplanets := by
    unfold getPlanetsOrbitingHottestStar
    rw [hottestIds_eq]
    simp
  refine ⟨(exoplanets.foldl hottestStep ([], (-1 : Rat))).2, hatt,
    fun planet hp t ht => hottestTemp_upper _ _ _ planet hp t ht, hres, ?_⟩
  obtain ⟨top, htop, hv⟩ := hatt
  rw [hres]
  intro hnil
  have hmem : top.PlanetIdentifier
      ∈ idsAtTemp (exoplanets.foldl hottestStep ([], (-1 : Rat))).2 exoplanets := by
    unfold idsAtTemp
    exact List.mem_map.2 ⟨top, List.mem_filter.2 ⟨htop, by simpa using hv⟩, rfl⟩
  rw [hnil] at hmem
  exact absurd hmem (List.not_mem_nil _)

/-- C18 at a list with the temperatures `-1`, absent and `-1/2`: the result is
not empty. -/
theorem getPlanetsOrbitingHottestStar_max_witness :
    ∃ M : float64,
      (∃ planet ∈ [(⟨"a", 0, ⟨none⟩, ⟨none⟩, ⟨some (-1)⟩⟩ : exoplanet),
          ⟨"b", 0, ⟨none⟩, ⟨none⟩, ⟨none⟩⟩, ⟨"c", 0, ⟨none⟩, ⟨none⟩, ⟨some (-1 / 2)⟩⟩],
        planet.HostStarTempK.Value = some M)
      ∧ (∀ planet ∈ [(⟨"a", 0, ⟨none⟩, ⟨none⟩, ⟨some (-1)⟩⟩ : exoplanet),
          ⟨"b", 0, ⟨none⟩, ⟨none⟩, ⟨none⟩⟩, ⟨"c", 0, ⟨none⟩, ⟨none⟩, ⟨some (-1 / 2)⟩⟩],
          ∀ t, planet.HostStarTempK.Value = some t → t ≤ M)
      ∧ getPlanetsOrbitingHottestStar [⟨"a", 0, ⟨none⟩, ⟨none⟩, ⟨some (-1)⟩⟩,
          ⟨"b", 0, ⟨none⟩, ⟨none⟩, ⟨none⟩⟩, ⟨"c", 0, ⟨none⟩, ⟨none⟩, ⟨some (-1 / 2)⟩⟩]
        = idsAtTemp M [⟨"a", 0, ⟨none⟩, ⟨none⟩, ⟨some (-1)⟩⟩,
          ⟨"b", 0, ⟨none⟩, ⟨none⟩, ⟨none⟩⟩, ⟨"c", 0, ⟨none⟩, ⟨none⟩, ⟨some (-1 / 2)⟩⟩]
      ∧ getPlanetsOrbitingHottestStar [⟨"a", 0, ⟨none⟩, ⟨none⟩, ⟨some (-1)⟩⟩,
          ⟨"b", 0, ⟨none⟩, ⟨none⟩, ⟨none⟩⟩, ⟨"c", 0, ⟨none⟩, ⟨none⟩, ⟨some (-1 / 2)⟩⟩] ≠ [] :=
  getPlanetsOrbitingHottestStar_max _
    ⟨⟨"a", 0, ⟨none⟩, ⟨none⟩, ⟨some (-1)⟩⟩, by simp, -1, rfl, le_refl _⟩

/-- Records whose temperature is absent or below the running maximum leave
the state of the loop as it is. -/
theorem foldl_hottestStep_below (exoplanets : List exoplanet) (ids : List String) (m : float64)
    (h : ∀ planet ∈ exoplanets, ∀ t, planet.HostStarTempK.Value = some t → t < m) :
    exoplanets.foldl hottestStep (ids, m) = (ids, m) := by
  induction exoplanets with
  | nil => rfl
  | cons first rest ih =>
    rw [List.foldl_cons]
    have hrest : ∀ planet ∈ rest, ∀ t, planet.HostStarTempK.Value = some t → t < m :=
      fun planet hp => h planet (List.mem_cons_of_mem _ hp)
    cases ht : first.HostStarTempK.Value with
    | none => rw [hottestStep_none _ _ ht]; exact ih hrest
    | some t =>
      rw [hottestStep_gt _ _ _ _ ht (h first (List.mem_cons_self _ _) t ht)]
      exact ih hrest

/-- C19: the running maximum of `getPlanetsOrbitingHottestStar` starts at
`-1`; so for every list of records in which every present `HostStarTempK` is
strictly below `-1` the result is empty, even when temperatures are present,
and for every list the records returned are those at a temperature `m` that
is at least `-1`: no record with a temperature strictly below `-1` is ever
returned. -/
theorem getPlanetsOrbitingHottestStar_sentinel (exoplanets : List exoplanet) :
    ((∀ planet ∈ exoplanets, ∀ t, planet.HostStarTempK.Value = some t → t < -1)
        → getPlanetsOrbitingHottestStar exoplanets = [])
    ∧ ∃ m : float64, -1 ≤ m
        ∧ getPlanetsOrbitingHottestStar exoplanets
            = ((exoplanets.filter
                (fun planet => decide (planet.HostStarTempK.Value = some m))).map
                (fun planet => planet.PlanetIdentifier))
        ∧ ∀ planet ∈ exoplanets.filter
              (fun planet => decide (planet.HostStarTempK.Value = some m)),
            ∀ t, planet.HostStarTempK.Value = some t → ¬ t < -1 := by
  constructor
  · intro h
    unfold getPlanetsOrbitingHottestStar
    rw [foldl_hottestStep_below exoplanets [] (-1 : Rat) h]
  · have hge := hottestTemp_ge exoplanets [] (-1 : Rat)
    refine ⟨(exoplanets.foldl hottestStep ([], (-1 : Rat))).2, hge, ?_, ?_⟩
    · unfold getPlanetsOrbitingHottestStar
      rw [hottestIds_eq]
      simp [idsAtTemp]
    · intro planet hp t ht
      have hv := (List.mem_filter.1 hp).2
      simp only [decide_eq_true_eq] at hv
      rw [hv] at ht
      rw [← Option.some.inj ht]
      exact not_lt.2 hge

/-- C19 at a list with the temperatures `-5`, absent and `-2`: nothing is
returned. -/
theorem getPlanetsOrbitingHottestStar_sentinel_witness :
    getPlanetsOrbitingHottestStar [⟨"a", 0, ⟨none⟩, ⟨none⟩, ⟨some (-5)⟩⟩,
      ⟨"b", 0, ⟨none⟩, ⟨none⟩, ⟨none⟩⟩, ⟨"c", 0, ⟨none⟩, ⟨none⟩, ⟨some (-2)⟩⟩] = [] :=
  (getPlanetsOrbitingHottestStar_sentinel _).1 (by
    intro planet hp t ht
    simp only [List.mem_cons, List.mem_singleton, List.not_mem_nil, or_false] at hp
    rcases hp with rfl | rfl | rfl
    · rw [← Option.some.inj ht]; norm_num
    · exact absurd ht (by simp)
    · rw [← Option.some.inj ht]; norm_num)

/-! ## Timeline builder: order of the input -/

/-- The entry of the timeline under a year: present exactly when a record is
discovered in that year, and then the three counts of the year. -/
theorem getTimeline_lookup (exoplanets : List exoplanet) (y : Int) :
    (getTimeline exoplanets).lookup y
      = if ∃ planet ∈ exoplanets, discoveredIn y planet = true then
          some ⟨(exoplanets.countP (smallIn y) : Nat), (exoplanets.countP (mediumIn y) : Nat),
            (exoplanets.countP (largeIn y) : Nat)⟩
        else none := by
  have hmem : y ∈ getTimeline exoplanets
      ↔ ∃ planet ∈ exoplanets, discoveredIn y planet = true := by
    unfold getTimeline
    rw [foldl_timelineStep_mem]
    simp
  have hidx := foldl_timelineStep_index exoplanets ∅ y
  by_cases h : ∃ planet ∈ exoplanets, discoveredIn y planet = true
  · rw [if_pos h]
    have hsome : ((getTimeline exoplanets).lookup y).isSome :=
      AList.lookup_isSome.2 (hmem.2 h)
    obtain ⟨group, hg⟩ := Option.isSome_iff_exists.1 hsome
    have hgi : (exoplanets.foldl timelineStep ∅).index y = group := by
      simp only [getTimeline] at hg
      simp [Timeline.index, hg]
    rw [hg, ← hgi, hidx]
    simp [Timeline.index]
  · rw [if_neg h]
    exact AList.lookup_eq_none.2 (fun hy => h (hmem.1 hy))

/-- C20: `getTimeline` does not depend on the order of its input: on two lists
of records that are permutations of each other the returned maps are equal,
with the same entry, or none, under every key, that is the same keys and the
same three counts per key. -/
theorem getTimeline_perm (l₁ l₂ : List exoplanet) (h : l₁.Perm l₂) :
    (∀ y : Int, (getTimeline l₁).lookup y = (getTimeline l₂).lookup y)
    ∧ (∀ y : Int, y ∈ (getTimeline l₁).keys ↔ y ∈ (getTimeline l₂).keys)
    ∧ (getTimeline l₁).entries.Perm (getTimeline l₂).entries := by
  have hlookup : ∀ y : Int, (getTimeline l₁).lookup y = (getTimeline l₂).lookup y := by
    intro y
    rw [getTimeline_lookup, getTimeline_lookup, h.countP_eq, h.countP_eq, h.countP_eq]
    have hex : (∃ planet ∈ l₁, discoveredIn y planet = true)
        ↔ ∃ planet ∈ l₂, discoveredIn y planet = true := by
      constructor
      · rintro ⟨planet, hp, hd⟩; exact ⟨planet, h.mem_iff.1 hp, hd⟩
      · rintro ⟨planet, hp, hd⟩; exact ⟨planet, h.mem_iff.2 hp, hd⟩
    by_cases hc : ∃ planet ∈ l₁, discoveredIn y planet = true
    · rw [if_pos hc, if_pos (hex.1 hc)]
    · rw [if_neg hc, if_neg (fun hc' => hc (hex.2 hc'))]
  refine ⟨hlookup, ?_, ?_⟩
  · intro y
    rw [← AList.mem_keys, ← AList.mem_keys, ← AList.lookup_isSome, ← AList.lookup_isSome,
      hlookup y]
  · apply List.lookup_ext (getTimeline l₁).nodupKeys (getTimeline l₂).nodupKeys
    intro y group
    have := hlookup y
    simp only [AList.lookup] at this
    rw [this]

/-- C20 at a list of two planets of the years 2001 and 2000 and its
reversal. -/
theorem getTimeline_perm_witness :
    (getTimeline [⟨"a", 0, ⟨some 1⟩, ⟨some 2001⟩, ⟨none⟩⟩,
        ⟨"b", 0, ⟨some 2⟩, ⟨some 2000⟩, ⟨none⟩⟩]).entries.Perm
      (getTimeline [⟨"b", 0, ⟨some 2⟩, ⟨some 2000⟩, ⟨none⟩⟩,
        ⟨"a", 0, ⟨some 1⟩, ⟨some 2001⟩, ⟨none⟩⟩]).entries :=
  (getTimeline_perm _ _ (List.Perm.swap _ _ _)).2.2

/-! ## Catalog fetcher -/

/-- The result of `fetchExoplanets` on a response: that of reading and
decoding its body. -/
theorem fetchExoplanets_ok (httpGet : String → Except String Response) (url : String)
    (resp : Response) (h : httpGet url = .ok resp) :
    fetchExoplanets httpGet url
      = match resp.Body with
        | .error err => (none, some (.ReadAll err))
        | .ok body =>
          match jsonUnmarshalExoplanets body with
          | .error err => (none, some (.Unmarshal err))
          | .ok exoplanets => (exoplanets, none) := by
  simp only [fetchExoplanets, h]

/-- A body whose root is neither an array nor `null` does not decode. -/
theorem jsonUnmarshalExoplanets_root (root : JSONValue)
    (harray : ∀ elems, root ≠ .array elems) (hnull : root ≠ .null) :
    ∃ err, jsonUnmarshalExoplanets (some root) = .error err := by
  unfold jsonUnmarshalExoplanets
  by_cases hv : root.valid = true
  · cases root with
    | null => exact absurd rfl hnull
    | array elems => exact absurd rfl (harray elems)
    | bool b => exact ⟨.Mismatch "bool", by simp [hv, JSONValue.kindName]⟩
    | number q b => exact ⟨.Mismatch "number", by simp [hv, JSONValue.kindName]⟩
    | string s => exact ⟨.Mismatch "string", by simp [hv, JSONValue.kindName]⟩
    | object members => exact ⟨.Mismatch "object", by simp [hv, JSONValue.kindName]⟩
  · exact ⟨.SyntaxError, by simp [hv]⟩

/-- C13, as amended: `fetchExoplanets` does not look at the status of the
response: two responses with the same body give the same result whatever
their statuses, 2xx or not; and in the case of the test, status 500 with the
empty body, it returns an error and no records, because the empty body is not
JSON. -/
theorem fetchExoplanets_status (httpGet httpGet' : String → Except String Response)
    (url : String) (status status' : Int) (body : Except String JSONText)
    (h : httpGet url = .ok ⟨status, body⟩) (h' : httpGet' url = .ok ⟨status', body⟩) :
    fetchExoplanets httpGet url = fetchExoplanets httpGet' url
    ∧ (body = .ok none →
        fetchExoplanets httpGet url = (none, some (.Unmarshal .SyntaxError))) := by
  constructor
  · rw [fetchExoplanets_ok _ _ _ h, fetchExoplanets_ok _ _ _ h']
  · intro hb
    rw [fetchExoplanets_ok _ _ _ h, hb]
    rfl

/-- C13 at the test case `HTTPError` and the same body under status 200. -/
theorem fetchExoplanets_status_witness :
    fetchExoplanets status500NoBody dataSourceURL
        = fetchExoplanets status200NoBody dataSourceURL
    ∧ (((.ok none : Except String JSONText) = .ok none) →
        fetchExoplanets status500NoBody dataSourceURL
          = (none, some (.Unmarshal .SyntaxError))) :=
  fetchExoplanets_status status500NoBody status200NoBody dataSourceURL 500 200 (.ok none)
    rfl rfl

/-- C13 as stated fails on the response with status 500 and the body `[]`:
`fetchExoplanets` returns no error, and an empty slice of records. -/
theorem fetchExoplanets_500_decodes :
    fetchExoplanets status500EmptyArray dataSourceURL = (some [], none) := by
  decide

/-- C14: for every response body that is malformed JSON or is well-formed JSON
whose root is neither an array nor `null` (an object, a string, a number or a
boolean), `fetchExoplanets` returns an error, that of the decoding, and a nil
record sequence. -/
theorem fetchExoplanets_decode_error (httpGet : String → Except String Response)
    (url : String) (status : Int) (text : JSONText)
    (h : httpGet url = .ok ⟨status, .ok text⟩)
    (hroot : text = none
      ∨ ∃ root, text = some root ∧ (∀ elems, root ≠ .array elems) ∧ root ≠ .null) :
    (fetchExoplanets httpGet url).1 = none
    ∧ ∃ err, (fetchExoplanets httpGet url).2 = some (.Unmarshal err) := by
  rw [fetchExoplanets_ok _ _ _ h]
  rcases hroot with rfl | ⟨root, rfl, harray, hnull⟩
  · exact ⟨rfl, .SyntaxError, rfl⟩
  · obtain ⟨err, herr⟩ := jsonUnmarshalExoplanets_root root harray hnull
    have hres : (match (⟨status, .ok (some root)⟩ : Response).Body with
        | .error err => ((none : GoSlice exoplanet), some (FetchError.ReadAll err))
        | .ok body =>
          match jsonUnmarshalExoplanets body with
          | .error err => (none, some (.Unmarshal err))
          | .ok exoplanets => (exoplanets, none)) = (none, some (.Unmarshal err)) := by
      show (match jsonUnmarshalExoplanets (some root) with
        | .error err => ((none : GoSlice exoplanet), some (FetchError.Unmarshal err))
        | .ok exoplanets => (exoplanets, none)) = _
      rw [herr]
    rw [hres]
    exact ⟨rfl, err, rfl⟩

/-- C14 at a body whose root is an object. -/
theorem fetchExoplanets_decode_error_witness :
    (fetchExoplanets status200Object dataSourceURL).1 = none
    ∧ ∃ err, (fetchExoplanets status200Object dataSourceURL).2 = some (.Unmarshal err) :=
  fetchExoplanets_decode_error status200Object dataSourceURL 200 (some (.object [])) rfl
    (Or.inr ⟨.object [], rfl, by simp, by simp⟩)

/-- C15: when the response body is the JSON value `null`, `fetchExoplanets`
returns no error and the nil sequence, of zero records; when the body is the
empty array `[]` it returns no error and an empty sequence that is not
nil. -/
theorem fetchExoplanets_null_empty (httpGet : String → Except String Response)
    (url : String) (status : Int) :
    (httpGet url = .ok ⟨status, .ok (some .null)⟩ →
        fetchExoplanets httpGet url = (none, none)
          ∧ (fetchExoplanets httpGet url).1.elems = [])
    ∧ (httpGet url = .ok ⟨status, .ok (some (.array []))⟩ →
        fetchExoplanets httpGet url = (some [], none)) := by
  constructor
  · intro h
    rw [fetchExoplanets_ok _ _ _ h]
    exact ⟨rfl, rfl⟩
  · intro h
    rw [fetchExoplanets_ok _ _ _ h]
    rfl

/-- C15 at the test case `NilResponse`. -/
theorem fetchExoplanets_null_empty_witness :
    fetchExoplanets status200Null dataSourceURL = (none, none)
    ∧ (fetchExoplanets status200Null dataSourceURL).1.elems = [] :=
  (fetchExoplanets_null_empty status200Null dataSourceURL 200).1 rfl

/-! ## Display -/

/-- C16: whenever `fetchExoplanets` returns an error, `DisplayExoplanetData`
returns that same error and writes nothing to standard output: neither the
orphan count, nor the hottest-star line, nor any timeline line. -/
theorem DisplayExoplanetData_error (httpGet : String → Except String Response)
    (err : FetchError) (h : (fetchExoplanets httpGet dataSourceURL).2 = some err) :
    (DisplayExoplanetData httpGet).2 = some err ∧ (DisplayExoplanetData httpGet).1 = [] := by
  unfold DisplayExoplanetData
  cases hf : fetchExoplanets httpGet dataSourceURL with
  | mk exoplanets e =>
    rw [hf] at h
    simp only at h
    subst h
    exact ⟨rfl, rfl⟩

/-- C16 at the test case `HTTPError`. -/
theorem DisplayExoplanetData_error_witness :
    (DisplayExoplanetData status500NoBody).2 = some (.Unmarshal .SyntaxError)
    ∧ (DisplayExoplanetData status500NoBody).1 = [] :=
  DisplayExoplanetData_error status500NoBody (.Unmarshal .SyntaxError) rfl

theorem roundHalfEven_intCast (k : Int) : roundHalfEven (k : Rat) = k := by
  simp [roundHalfEven]

/-- A positive integer below `2^53` is a `float64`: the decoder stores it
unchanged. -/
theorem roundFloat64_natCast (n : Nat) (h0 : 0 < n) (h : n < 2 ^ 53) :
    roundFloat64 (n : Rat) = n := by
  have hn0 : (n : Rat) ≠ 0 := by exact_mod_cast (Nat.pos_iff_ne_zero.1 h0)
  have hlog : Int.log 2 |(n : Rat)| = (Nat.log 2 n : Int) := by
    rw [abs_of_nonneg (by positivity), Int.log_natCast]
  have he : Nat.log 2 n ≤ 52 := by
    have := Nat.log_lt_of_lt_pow (Nat.pos_iff_ne_zero.1 h0) h
    omega
  have hmax : max ((Nat.log 2 n : Int)) (-1022) = (Nat.log 2 n : Int) := by
    apply max_eq_left; omega
  have hulp : (2 : Rat) ^ ((Nat.log 2 n : Int) - 52) = ((2 : Rat) ^ (52 - Nat.log 2 n))⁻¹ := by
    rw [← zpow_natCast, ← zpow_neg]
    congr 1
    omega
  unfold roundFloat64
  rw [if_neg hn0]
  simp only [hlog, hmax, hulp]
  have hdiv : (n : Rat) / ((2 : Rat) ^ (52 - Nat.log 2 n))⁻¹
      = (((n * 2 ^ (52 - Nat.log 2 n) : Nat) : Int) : Rat) := by
    rw [div_inv_eq_mul]; push_cast; ring
  rw [hdiv, roundHalfEven_intCast]
  push_cast
  field_simp

/-- The records `fetchExoplanets` decodes from the body of
`status200OnePlanet`. -/
theorem fetchExoplanets_onePlanet :
    fetchExoplanets status200OnePlanet dataSourceURL
      = (some [⟨"P1", 3, ⟨some 1⟩, ⟨some 2000⟩, ⟨some 5000⟩⟩], none) := by
  have h1 : overflowsFloat64 1 = false := by
    simp only [overflowsFloat64]; norm_num
  have h2 : overflowsFloat64 2000 = false := by
    simp only [overflowsFloat64]; norm_num
  have h3 : overflowsFloat64 5000 = false := by
    simp only [overflowsFloat64]; norm_num
  have r1 : roundFloat64 1 = 1 := by
    have := roundFloat64_natCast 1 (by norm_num) (by norm_num)
    simpa using this
  have r2 : roundFloat64 2000 = 2000 := by
    have := roundFloat64_natCast 2000 (by norm_num) (by norm_num)
    simpa using this
  have r3 : roundFloat64 5000 = 5000 := by
    have := roundFloat64_natCast 5000 (by norm_num) (by norm_num)
    simpa using this
  simp [fetchExoplanets, status200OnePlanet, jsonUnmarshalExoplanets, JSONValue.valid,
    JSONValue.nesting, elemsNesting, membersNesting, maxNestingDepth, decodeElements,
    decodeElement, decodeObject, findField, fieldNames, decodeField,
    nillableFloat.UnmarshalJSON, jsonUnmarshal, jsonUnmarshalAny, convertNumber, h1, h2, h3,
    r1, r2, r3]

/-- C17: whenever `fetchExoplanets` succeeds with records `rs` (the elements
of the slice it returns, none for the nil slice), the output of
`DisplayExoplanetData` is, in this order, one line with the orphan count
`getNumberOfOrphanedPlanets(rs)`, one line with the identifiers of
`getPlanetsOrbitingHottestStar(rs)` joined by `", "`, and then exactly the
lines `printTimeline` writes for `getTimeline(rs)`; and it returns no
error. -/
theorem DisplayExoplanetData_output (httpGet : String → Except String Response)
    (slice : GoSlice exoplanet) (rs : List exoplanet)
    (h : fetchExoplanets httpGet dataSourceURL = (slice, none))
    (hrs : slice = some rs ∨ (slice = none ∧ rs = [])) :
    (DisplayExoplanetData httpGet).1
      = ["Number of orphan planets: " ++ toString (getNumberOfOrphanedPlanets rs) ++ "\n",
          "Planet(s) orbiting hottest star(s): "
            ++ ", ".intercalate (getPlanetsOrbitingHottestStar rs) ++ "\n"]
        ++ printTimeline (getTimeline rs)
    ∧ (DisplayExoplanetData httpGet).2 = none := by
  have helems : slice.elems = rs := by
    rcases hrs with hs | ⟨hs, hnil⟩
    · rw [hs]; rfl
    · rw [hs, hnil]; rfl
  unfold DisplayExoplanetData
  rw [h]
  simp [helems, Println, stringsJoin, String.intercalate, String.intercalate.go,
    String.append_assoc]

/-- C17 at a catalog of one planet: the three lines written are those of the
planet fetched. -/
theorem DisplayExoplanetData_output_witness :
    (DisplayExoplanetData status200OnePlanet).1
      = ["Number of orphan planets: 1\n", "Planet(s) orbiting hottest star(s): P1\n",
          "In 2000 we discovered 0 small planets, 1 medium planets, and 0 large planets.\n"]
    ∧ (DisplayExoplanetData status200OnePlanet).2 = none := by
  have h := DisplayExoplanetData_output status200OnePlanet
    (some [⟨"P1", 3, ⟨some 1⟩, ⟨some 2000⟩, ⟨some 5000⟩⟩])
    [⟨"P1", 3, ⟨some 1⟩, ⟨some 2000⟩, ⟨some 5000⟩⟩] fetchExoplanets_onePlanet (Or.inl rfl)
  have horphan : getNumberOfOrphanedPlanets
      [⟨"P1", 3, ⟨some 1⟩, ⟨some 2000⟩, ⟨some 5000⟩⟩] = 1 := by decide
  have hhot : getPlanetsOrbitingHottestStar
      [⟨"P1", 3, ⟨some 1⟩, ⟨some 2000⟩, ⟨some 5000⟩⟩] = ["P1"] := by decide
  have hmap : getTimeline [⟨"P1", 3, ⟨some 1⟩, ⟨some 2000⟩, ⟨some 5000⟩⟩]
      = AList.singleton 2000 ⟨0, 1, 0⟩ :=
    (getTimeline_boundary 2000 (by unfold fitsInt; norm_num) "P1" "" "" 3 0 0 ⟨some 5000⟩
      ⟨none⟩ ⟨none⟩).1
  have hlines : printTimeline (AList.singleton 2000 ⟨0, 1, 0⟩)
      = ["In 2000 we discovered 0 small planets, 1 medium planets, and 0 large planets.\n"] := by
    decide
  rw [horphan, hhot, hmap, hlines] at h
  exact h

end exoplanetCatalog
